import Mathlib

/-!
Verification of the VALORANT scouting analytics core: a shallow embedding of
`src/grid_client/client.py` (`_compute_team_history`), `src/analysis/stats.py`
(`StatsCalculator`), `src/analysis/patterns.py` (`PatternDetector`) and
`src/analysis/report_builder.py` (`ScoutingReportBuilder`), together with
theorems settling the specification claims about them.

Modelling conventions:
- Python floats are modelled as exact rationals (`ℚ`); float literals such as
  `0.4` or `0.2` become the rationals `4/10`, `2/10`.
- Python `round(x, n)` (round-half-to-even) is `pyRound x n`; the rendering of
  a rounded float by `str(...)` or an `f"{...:.1f}"` format is `fmtQ`.
- Python dicts are insertion-ordered association lists (`alGet` / `alSet`
  reproduce lookup and in-place-or-append update); Python's stable `sorted`
  with a key is `pySortOn` / `pySortOnDesc` (stable merge sort).
- The iteration order of the Python `set` built in
  `detect_agent_dependencies` is modelled as first-insertion order
  (`insertOnce`); within one process Python iterates it in a fixed order.
- Record fields never read by the embedded analytics code (e.g. `kast`,
  `headshot_percentage`, `tournament_name`, `best_of`, `team_a_side_first`)
  are omitted from the data model.
-/

namespace Scouting

/-- Python dict lookup `d.get(k)` on an insertion-ordered association list. -/
def alGet {β : Type} : List (String × β) → String → Option β
  | [], _ => none
  | p :: rest, k => if p.1 = k then some p.2 else alGet rest k

/-- Python dict update `d[k] = v`: replace in place if the key exists,
otherwise append at the end (insertion order). -/
def alSet {β : Type} : List (String × β) → String → β → List (String × β)
  | [], k, v => [(k, v)]
  | p :: rest, k, v => if p.1 = k then (k, v) :: rest else p :: alSet rest k v

/-- Adding an element to a Python set, modelled with first-insertion order. -/
def insertOnce (l : List String) (a : String) : List String :=
  if a ∈ l then l else l ++ [a]

/-- Python `max(items, key=...)`: the first maximal element. -/
def pyMaxBy {α : Type} (key : α → ℕ) : List α → Option α
  | [] => none
  | x :: xs => some (xs.foldl (fun b y => if key b < key y then y else b) x)

/-- Round-half-to-even to an integer, as Python's `round` ties rule. -/
def rnd2 (x : ℚ) : ℤ :=
  let f : ℤ := ⌊x⌋
  let r : ℚ := x - f
  if r < 1/2 then f
  else if 1/2 < r then f + 1
  else if f % 2 = 0 then f else f + 1

/-- Python `round(x, d)` on the exact-rational model of a float. -/
def pyRound (x : ℚ) (d : ℕ) : ℚ :=
  (rnd2 (x * 10 ^ d) : ℚ) / 10 ^ d

/-- Rendering of a float that is an exact multiple of 1/100 by Python's
`str` / `"{:.1f}"`: one decimal digit when the value is a multiple of 1/10,
two otherwise (`"-0.0"` when a negative value rounded to zero). -/
def fmtQ (x : ℚ) : String :=
  let h : ℤ := rnd2 (x * 100)
  let sign : String := if x < 0 ∨ h < 0 then "-" else ""
  let n : ℕ := h.natAbs
  if n % 10 = 0 then sign ++ toString (n / 100) ++ "." ++ toString (n / 10 % 10)
  else sign ++ toString (n / 100) ++ "." ++ toString (n / 10 % 10) ++ toString (n % 10)

/-- Format `x` like the Python pattern `f"{x:.1f}"`: round to one decimal,
then render. -/
def fm1 (x : ℚ) : String := fmtQ (pyRound x 1)

/-- Python's stable `sorted(l, key=key)` (ascending). -/
def pySortOn {α β : Type} [LinearOrder β] (key : α → β) (l : List α) : List α :=
  l.mergeSort (fun a b => decide (key a ≤ key b))

/-- Python's stable `sorted(l, key=key, reverse=True)` (descending,
ties kept in original order). -/
def pySortOnDesc {α β : Type} [LinearOrder β] (key : α → β) (l : List α) : List α :=
  l.mergeSort (fun a b => decide (key b ≤ key a))

/-! ## Data model (src/grid_client/models.py) -/

/-- A roster player (fields the analytics core reads). -/
structure Player where
  id : String
  name : String
deriving DecidableEq

/-- A team identity. -/
structure Team where
  id : String
  name : String
  short_name : String
  region : Option String
  roster : List Player
deriving DecidableEq

/-- A single map result within a match. -/
structure MapResult where
  map_name : String
  team_a_score : ℤ
  team_b_score : ℤ
  winner_team_id : String
deriving DecidableEq

/-- One player's agent pick in a match. -/
structure AgentPick where
  player_id : String
  player_name : String
  agent : String
  map_name : String
deriving DecidableEq

/-- Per-player per-match combat statistics (fields the core reads). -/
structure PlayerMatchStats where
  player_id : String
  player_name : String
  agent : String
  kills : ℤ
  deaths : ℤ
  assists : ℤ
  acs : ℚ
  adr : ℚ
  first_kills : ℤ
  first_deaths : ℤ
deriving DecidableEq

/-- A match record; `winner_team_id` is `Optional[str]` in the source. -/
structure Match where
  id : String
  team_a_id : String
  team_b_id : String
  winner_team_id : Option String
  date : ℤ
  maps_played : List MapResult
  player_stats : List PlayerMatchStats
  agent_picks : List AgentPick
deriving DecidableEq

/-- Per-map accumulated statistics, the value type of the
`map_stats` dict built by `_compute_team_history`. -/
structure MapStats where
  played : ℕ
  wins : ℕ
  rounds_won : ℤ
  rounds_lost : ℤ
  win_rate : ℚ
deriving DecidableEq

/-- The zero-initialized per-map entry
`{"played": 0, "wins": 0, "rounds_won": 0, "rounds_lost": 0}`. -/
def mapStatsInit : MapStats := ⟨0, 0, 0, 0, 0⟩

/-- A team's computed match history (`TeamMatchHistory` in models.py). -/
structure TeamMatchHistory where
  team : Team
  «matches» : List Match
  total_matches : ℕ
  wins : ℕ
  losses : ℕ
  win_rate : ℚ
  map_stats : List (String × MapStats)
  agent_picks : List (String × ℕ)
  recent_form : List String
deriving DecidableEq

/-- The full data package handed to the analytics core. -/
structure GridDataPackage where
  team_a : TeamMatchHistory
  team_b : TeamMatchHistory
  head_to_head_matches : List Match
  fetch_timestamp : ℤ
  time_window_days : ℤ
  data_source : String
deriving DecidableEq

/-! ## GridClient._compute_team_history (src/grid_client/client.py) -/

/-- One iteration of the inner `for map_result in match.maps_played` loop of
`_compute_team_history`: bump played/wins and accumulate rounds for the map. -/
def update_map_stats (team : Team) (is_team_a : Bool) (acc : List (String × MapStats))
    (mr : MapResult) : List (String × MapStats) :=
  let s0 := (alGet acc mr.map_name).getD mapStatsInit
  let s1 := { s0 with played := s0.played + 1,
                      wins := if mr.winner_team_id = team.id then s0.wins + 1 else s0.wins }
  let s2 :=
    if is_team_a then
      { s1 with rounds_won := s1.rounds_won + mr.team_a_score,
                rounds_lost := s1.rounds_lost + mr.team_b_score }
    else
      { s1 with rounds_won := s1.rounds_won + mr.team_b_score,
                rounds_lost := s1.rounds_lost + mr.team_a_score }
  alSet acc mr.map_name s2

/-- One iteration of the `for pick in match.agent_picks` loop of
`_compute_team_history`. -/
def update_agent_picks (team : Team) (acc : List (String × ℕ)) (p : AgentPick) :
    List (String × ℕ) :=
  if p.player_id ∈ team.roster.map Player.id then
    alSet acc p.agent ((alGet acc p.agent).getD 0 + 1)
  else acc

/-- `GridClient._compute_team_history`. The Python local `wins` is shadowed by
the per-map win-rate loop (`wins = map_stats[map_name]["wins"]`), so the value
stored in the `wins` field is the last map's win count whenever `map_stats` is
non-empty; `losses` and `win_rate` are computed from the original count before
the shadowing. The embedding reproduces this behaviour exactly. -/
def compute_team_history (team : Team) («matches» : List Match) : TeamMatchHistory :=
  let wins0 := «matches».countP (fun m => decide (m.winner_team_id = some team.id))
  let losses := «matches».length - wins0
  let win_rate : ℚ := if «matches».isEmpty then 0 else (wins0 : ℚ) / («matches».length : ℚ) * 100
  let map_stats0 : List (String × MapStats) :=
    «matches».foldl (fun acc m =>
      m.maps_played.foldl (update_map_stats team (m.team_a_id = team.id)) acc) []
  let agent_picks : List (String × ℕ) :=
    «matches».foldl (fun acc m => m.agent_picks.foldl (update_agent_picks team) acc) []
  let map_stats : List (String × MapStats) :=
    map_stats0.map (fun p =>
      (p.1, { p.2 with win_rate :=
                if 0 < p.2.played then (p.2.wins : ℚ) / (p.2.played : ℚ) * 100 else 0 }))
  let wins := (map_stats.getLast?.map (fun p => p.2.wins)).getD wins0
  let recent_matches := (pySortOnDesc (fun m => m.date) «matches»).take 5
  let recent_form :=
    recent_matches.map (fun m => if m.winner_team_id = some team.id then "W" else "L")
  ⟨team, «matches», «matches».length, wins, losses, win_rate, map_stats, agent_picks, recent_form⟩

/-! ## StatsCalculator (src/analysis/stats.py) -/

/-- `StatsCalculator._summarize_form`; the float thresholds `0.8`, `0.6`,
`0.4` are the exact rationals `8/10`, `6/10`, `4/10`. -/
def summarize_form (form : List String) : String :=
  if form.isEmpty then "No recent matches"
  else
    let wins := form.count "W"
    let total := form.length
    if wins = total then
      "Perfect form (" ++ toString wins ++ "/" ++ toString total ++ " wins)"
    else if (total : ℚ) * (8/10) ≤ (wins : ℚ) then
      "Excellent form (" ++ toString wins ++ "/" ++ toString total ++ " wins)"
    else if (total : ℚ) * (6/10) ≤ (wins : ℚ) then
      "Good form (" ++ toString wins ++ "/" ++ toString total ++ " wins)"
    else if (total : ℚ) * (4/10) ≤ (wins : ℚ) then
      "Mixed form (" ++ toString wins ++ "/" ++ toString total ++ " wins)"
    else
      "Poor form (" ++ toString wins ++ "/" ++ toString total ++ " wins)"

/-- The dictionary produced by `StatsCalculator.calculate_overall_stats`. -/
structure OverallStats where
  total_matches : ℕ
  wins : ℕ
  losses : ℕ
  win_rate : ℚ
  recent_form : List String
  recent_form_summary : String
deriving DecidableEq

/-- `StatsCalculator.calculate_overall_stats`. -/
def calculate_overall_stats (th : TeamMatchHistory) : OverallStats :=
  ⟨th.total_matches, th.wins, th.losses, pyRound th.win_rate 1, th.recent_form,
   summarize_form th.recent_form⟩

/-- The per-map dictionary produced by `StatsCalculator.calculate_map_stats`. -/
structure MapDisplayStats where
  played : ℕ
  wins : ℕ
  losses : ℤ
  win_rate : ℚ
  rounds_won : ℤ
  rounds_lost : ℤ
  round_differential : ℤ
  avg_round_differential : ℚ
deriving DecidableEq

/-- `StatsCalculator.calculate_map_stats`. -/
def calculate_map_stats (th : TeamMatchHistory) : List (String × MapDisplayStats) :=
  th.map_stats.map (fun p =>
    let win_rate : ℚ := if 0 < p.2.played then (p.2.wins : ℚ) / (p.2.played : ℚ) * 100 else 0
    let round_diff : ℤ := p.2.rounds_won - p.2.rounds_lost
    let avg_round_diff : ℚ := if 0 < p.2.played then (round_diff : ℚ) / (p.2.played : ℚ) else 0
    (p.1, ⟨p.2.played, p.2.wins, (p.2.played : ℤ) - (p.2.wins : ℤ), pyRound win_rate 1,
           p.2.rounds_won, p.2.rounds_lost, round_diff, pyRound avg_round_diff 1⟩))

/-- The dict comprehension `{k: v for k, v in map_stats.items() if v["played"] >= 2}`
shared by `get_best_maps` and `get_worst_maps`. -/
def qualified_maps (th : TeamMatchHistory) : List (String × MapDisplayStats) :=
  (calculate_map_stats th).filter (fun p => 2 ≤ p.2.played)

/-- An entry of the lists returned by `get_best_maps` / `get_worst_maps`. -/
structure MapEntry where
  map : String
  win_rate : ℚ
  record : String
  avg_round_diff : ℚ
deriving DecidableEq

/-- The sort key `(x[1]["win_rate"], x[1]["avg_round_differential"])`, compared
lexicographically as Python compares tuples. -/
def mapSortKey (p : String × MapDisplayStats) : Lex (ℚ × ℚ) :=
  toLex (p.2.win_rate, p.2.avg_round_differential)

/-- `StatsCalculator.get_best_maps`. -/
def get_best_maps (th : TeamMatchHistory) (top_n : ℕ) : List MapEntry :=
  ((pySortOnDesc mapSortKey (qualified_maps th)).take top_n).map (fun p =>
    ⟨p.1, p.2.win_rate, toString p.2.wins ++ "-" ++ toString p.2.losses,
     p.2.avg_round_differential⟩)

/-- `StatsCalculator.get_worst_maps`. -/
def get_worst_maps (th : TeamMatchHistory) (top_n : ℕ) : List MapEntry :=
  ((pySortOn mapSortKey (qualified_maps th)).take top_n).map (fun p =>
    ⟨p.1, p.2.win_rate, toString p.2.wins ++ "-" ++ toString p.2.losses,
     p.2.avg_round_differential⟩)

/-- The per-agent dictionary of `StatsCalculator.calculate_agent_stats`. -/
structure AgentStats where
  times_picked : ℕ
  pick_rate : ℚ
deriving DecidableEq

/-- `StatsCalculator.calculate_agent_stats`. -/
def calculate_agent_stats (th : TeamMatchHistory) : List (String × AgentStats) :=
  let total_picks := (th.agent_picks.map Prod.snd).sum
  th.agent_picks.map (fun p =>
    (p.1, ⟨p.2, pyRound (if 0 < total_picks then (p.2 : ℚ) / (total_picks : ℚ) * 100 else 0) 1⟩))

/-- An entry of the list returned by `get_most_played_agents`. -/
structure AgentPlayedEntry where
  agent : String
  times_picked : ℕ
  pick_rate : ℚ
deriving DecidableEq

/-- `StatsCalculator.get_most_played_agents`. -/
def get_most_played_agents (th : TeamMatchHistory) (top_n : ℕ) : List AgentPlayedEntry :=
  ((pySortOnDesc (fun p => p.2.times_picked) (calculate_agent_stats th)).take top_n).map
    (fun p => ⟨p.1, p.2.times_picked, p.2.pick_rate⟩)

/-- The per-player accumulator dict of `StatsCalculator.calculate_player_stats`. -/
structure PlayerAcc where
  match_count : ℕ
  total_kills : ℤ
  total_deaths : ℤ
  total_assists : ℤ
  total_acs : ℚ
  total_adr : ℚ
  total_first_kills : ℤ
  total_first_deaths : ℤ
  agents_played : List (String × ℕ)
deriving DecidableEq

/-- The zero-initialized player accumulator of the source's `defaultdict`. -/
def playerAccInit : PlayerAcc := ⟨0, 0, 0, 0, 0, 0, 0, 0, []⟩

/-- One iteration of the accumulation loop of `calculate_player_stats`. -/
def accum_player_stat (a : PlayerAcc) (s : PlayerMatchStats) : PlayerAcc :=
  ⟨a.match_count + 1, a.total_kills + s.kills, a.total_deaths + s.deaths,
   a.total_assists + s.assists, a.total_acs + s.acs, a.total_adr + s.adr,
   a.total_first_kills + s.first_kills, a.total_first_deaths + s.first_deaths,
   alSet a.agents_played s.agent ((alGet a.agents_played s.agent).getD 0 + 1)⟩

/-- The accumulation phase of `calculate_player_stats`: fold every
`match.player_stats` entry of a roster player into the per-name dict. -/
def player_accs (th : TeamMatchHistory) : List (String × PlayerAcc) :=
  th.«matches».foldl (fun d m =>
    m.player_stats.foldl (fun d s =>
      if s.player_id ∈ th.team.roster.map Player.id then
        alSet d s.player_name (accum_player_stat ((alGet d s.player_name).getD playerAccInit) s)
      else d) d) []

/-- The per-player dictionary produced by `calculate_player_stats`. -/
structure PlayerAggStats where
  matches_played : ℕ
  avg_kills : ℚ
  avg_deaths : ℚ
  avg_assists : ℚ
  kd_ratio : ℚ
  avg_acs : ℚ
  avg_adr : ℚ
  total_first_kills : ℤ
  total_first_deaths : ℤ
  fk_fd_diff : ℤ
  most_played_agent : String
deriving DecidableEq

/-- `StatsCalculator.calculate_player_stats` (averaging phase);
`K/D = total_kills / max(total_deaths, 1)`. -/
def calculate_player_stats (th : TeamMatchHistory) : List (String × PlayerAggStats) :=
  (player_accs th).filterMap (fun p =>
    let a := p.2
    if 0 < a.match_count then
      let kd : ℚ := (a.total_kills : ℚ) / ((max a.total_deaths 1 : ℤ) : ℚ)
      some (p.1,
        ⟨a.match_count,
         pyRound ((a.total_kills : ℚ) / (a.match_count : ℚ)) 1,
         pyRound ((a.total_deaths : ℚ) / (a.match_count : ℚ)) 1,
         pyRound ((a.total_assists : ℚ) / (a.match_count : ℚ)) 1,
         pyRound kd 2,
         pyRound (a.total_acs / (a.match_count : ℚ)) 1,
         pyRound (a.total_adr / (a.match_count : ℚ)) 1,
         a.total_first_kills, a.total_first_deaths,
         a.total_first_kills - a.total_first_deaths,
         match pyMaxBy Prod.snd a.agents_played with
         | some q => q.1
         | none => "Unknown"⟩)
    else none)

/-- An entry of the list built by `get_star_players`. -/
structure StarPlayer where
  name : String
  score : ℚ
  avg_acs : ℚ
  kd_ratio : ℚ
  avg_adr : ℚ
  most_played_agent : String
  fk_fd_diff : ℤ
deriving DecidableEq

/-- The scored-player list of `get_star_players`; the float weights
`0.4`, `0.3`, `0.2`, `0.1` are the exact rationals `4/10` … `1/10`. -/
def scored_players (th : TeamMatchHistory) : List StarPlayer :=
  (calculate_player_stats th).map (fun p =>
    ⟨p.1,
     p.2.avg_acs * (4/10) + p.2.kd_ratio * 100 * (3/10) + p.2.avg_adr * (2/10)
       + (p.2.fk_fd_diff : ℚ) * 5 * (1/10),
     p.2.avg_acs, p.2.kd_ratio, p.2.avg_adr, p.2.most_played_agent, p.2.fk_fd_diff⟩)

/-- `StatsCalculator.get_star_players`: sort by score (descending, stable —
the source specifies no further tie-break key) and keep the top `top_n`. -/
def get_star_players (th : TeamMatchHistory) (top_n : ℕ) : List StarPlayer :=
  (pySortOnDesc StarPlayer.score (scored_players th)).take top_n

/-- The dictionary returned by `calculate_head_to_head_stats`; a
`map_records` value pairs team-A wins with team-B wins on that map. -/
structure H2HStats where
  matches_played : ℕ
  team_a_wins : ℕ
  team_b_wins : ℕ
  team_a_win_rate : ℚ
  map_records : List (String × (ℕ × ℕ))
deriving DecidableEq

/-- One iteration of the per-map tally loop of `calculate_head_to_head_stats`. -/
def update_map_record (team_a_id : String) (d : List (String × (ℕ × ℕ)))
    (mr : MapResult) : List (String × (ℕ × ℕ)) :=
  let cur := (alGet d mr.map_name).getD (0, 0)
  if mr.winner_team_id = team_a_id then alSet d mr.map_name (cur.1 + 1, cur.2)
  else alSet d mr.map_name (cur.1, cur.2 + 1)

/-- `StatsCalculator.calculate_head_to_head_stats`. -/
def calculate_head_to_head_stats (data : GridDataPackage) : H2HStats :=
  let h2h := data.head_to_head_matches
  if h2h.isEmpty then ⟨0, 0, 0, 0, []⟩
  else
    let team_a_id := data.team_a.team.id
    let team_a_wins := h2h.countP (fun m => decide (m.winner_team_id = some team_a_id))
    let team_b_wins := h2h.length - team_a_wins
    let map_records := h2h.foldl (fun d m => m.maps_played.foldl (update_map_record team_a_id) d) []
    ⟨h2h.length, team_a_wins, team_b_wins,
     if ¬h2h.isEmpty then pyRound ((team_a_wins : ℚ) / (h2h.length : ℚ) * 100) 1 else 0,
     map_records⟩

/-! ## PatternDetector (src/analysis/patterns.py) -/

/-- A map-dependency dict of `detect_map_dependencies`. -/
structure MapDependency where
  map : String
  map_win_rate : ℚ
  overall_win_rate : ℚ
  difference : ℚ
  type : String
  games_played : ℕ
  description : String
deriving DecidableEq

/-- `PatternDetector.detect_map_dependencies`. -/
def detect_map_dependencies (th : TeamMatchHistory) : List MapDependency :=
  let deps := th.map_stats.filterMap (fun p =>
    if p.2.played < 2 then none
    else
      let map_win_rate := p.2.win_rate
      let diff := map_win_rate - th.win_rate
      if 15 < |diff| then
        some ⟨p.1, pyRound map_win_rate 1, pyRound th.win_rate 1, pyRound diff 1,
              if 0 < diff then "strength" else "weakness", p.2.played,
              (if 0 < diff then "Strong" else "Weak") ++ " on " ++ p.1 ++ " ("
                ++ fm1 map_win_rate ++ "% vs " ++ fm1 th.win_rate ++ "% overall)"⟩
      else none)
  pySortOnDesc (fun d => |d.difference|) deps

/-- An agent-dependency dict of `detect_agent_dependencies`. -/
structure AgentDependency where
  agent : String
  with_agent_win_rate : ℚ
  without_agent_win_rate : ℚ
  difference : ℚ
  games_with_agent : ℕ
  type : String
  description : String
deriving DecidableEq

/-- The `agents_in_match` set of `detect_agent_dependencies`: the distinct
agents this team's roster picked in one match (first-insertion order). -/
def agents_in_match (th : TeamMatchHistory) (m : Match) : List String :=
  ((m.agent_picks.filter (fun p => decide (p.player_id ∈ th.team.roster.map Player.id))).map
    AgentPick.agent).foldl insertOnce []

/-- The `agent_match_results` dict of `detect_agent_dependencies`: per agent,
the (wins, losses) over matches in which the team picked that agent. -/
def agent_match_results (th : TeamMatchHistory) : List (String × (ℕ × ℕ)) :=
  th.«matches».foldl (fun d m =>
    let won := m.winner_team_id = some th.team.id
    (agents_in_match th m).foldl (fun d a =>
      let cur := (alGet d a).getD (0, 0)
      alSet d a (if won then (cur.1 + 1, cur.2) else (cur.1, cur.2 + 1))) d) []

/-- `PatternDetector.detect_agent_dependencies`. -/
def detect_agent_dependencies (th : TeamMatchHistory) : List AgentDependency :=
  let deps := (agent_match_results th).filterMap (fun p =>
    let total : ℕ := p.2.1 + p.2.2
    if total < 3 then none
    else
      let agent_win_rate : ℚ := (p.2.1 : ℚ) / (total : ℚ) * 100
      let diff := agent_win_rate - th.win_rate
      if 10 < |diff| then
        some ⟨p.1, pyRound agent_win_rate 1, pyRound th.win_rate 1, pyRound diff 1, total,
              if 0 < diff then "strength" else "weakness",
              "Win rate " ++ (if 0 < diff then "increases" else "decreases") ++ " by "
                ++ fmtQ |pyRound diff 1| ++ "% with " ++ p.1⟩
      else none)
  pySortOnDesc (fun d => |d.difference|) deps

/-- The dict returned by `detect_form_patterns`; the short-form branch carries
no streak keys, modelled as `none` fields. -/
structure FormPattern where
  trend : String
  momentum : String
  current_streak : Option ℕ
  streak_type : Option String
  recent_record : Option String
  description : String
deriving DecidableEq

/-- The streak scan of `detect_form_patterns`: starting at 1, extend while
consecutive entries are equal — the length of the leading constant run. -/
def streak_length : List String → ℕ
  | [] => 1
  | x :: xs => 1 + (xs.takeWhile (fun y => y == x)).length

/-- `PatternDetector.detect_form_patterns`. When the form has exactly 3
entries the source clamps `older_total` to 1 (not 0), so `older_rate` becomes
`0/1 = 0` and its `else 0.5` default is unreachable; the embedding reproduces
this. The float `0.2` is the exact rational `2/10`. -/
def detect_form_patterns (th : TeamMatchHistory) : FormPattern :=
  let form := th.recent_form
  if form.length < 3 then
    ⟨"insufficient_data", "neutral", none, none, none,
     "Not enough recent matches to determine form"⟩
  else
    let recent_wins := (form.take 3).count "W"
    let older_wins := if 3 < form.length then (form.drop 3).count "W" else 0
    let older_total : ℕ := if 3 < form.length then form.length - 3 else 1
    let recent_rate : ℚ := (recent_wins : ℚ) / 3
    let older_rate : ℚ := if 0 < older_total then (older_wins : ℚ) / (older_total : ℚ) else 1/2
    let tm : String × String :=
      if older_rate + 2/10 < recent_rate then ("improving", "positive")
      else if recent_rate < older_rate - 2/10 then ("declining", "negative")
      else ("stable", "neutral")
    let streak_type := form.headD "N/A"
    let current_streak := streak_length form
    ⟨tm.1, tm.2, some current_streak,
     some (if streak_type = "W" then "winning" else "losing"),
     some (toString recent_wins ++ "-" ++ toString (3 - recent_wins)),
     "Team is on a " ++ toString current_streak ++ "-"
       ++ (if streak_type = "W" then "win" else "loss") ++ " streak, form is " ++ tm.1⟩

/-- A strength dict of `detect_opponent_strengths`. -/
structure Strength where
  category : String
  description : String
  metric : String
  severity : String
deriving DecidableEq

/-- `PatternDetector.detect_opponent_strengths` (the opponent is `team_b`). -/
def detect_opponent_strengths (data : GridDataPackage) : List Strength :=
  let opponent := data.team_b
  let s1 : List Strength :=
    if 60 ≤ opponent.win_rate then
      [⟨"Overall Performance",
        "High overall win rate (" ++ fm1 opponent.win_rate ++ "%)",
        fm1 opponent.win_rate ++ "% win rate across " ++ toString opponent.total_matches
          ++ " matches",
        if 70 ≤ opponent.win_rate then "high" else "medium"⟩]
    else []
  let s2 : List Strength := opponent.map_stats.filterMap (fun p =>
    if 3 ≤ p.2.played ∧ 70 ≤ p.2.win_rate then
      some ⟨"Map Dominance", "Dominant on " ++ p.1,
            fm1 p.2.win_rate ++ "% win rate on " ++ p.1 ++ " (" ++ toString p.2.wins ++ "-"
              ++ toString ((p.2.played : ℤ) - (p.2.wins : ℤ)) ++ ")",
            "high"⟩
    else none)
  let form_pattern := detect_form_patterns opponent
  let s3 : List Strength :=
    if form_pattern.momentum = "positive" then
      [⟨"Momentum", "Currently in strong form", form_pattern.description, "medium"⟩]
    else []
  let s4 : List Strength := ((detect_agent_dependencies opponent).take 2).filterMap (fun dep =>
    if dep.type = "strength" ∧ 15 < dep.difference then
      some ⟨"Agent Mastery", "Strong with " ++ dep.agent,
            fmtQ dep.with_agent_win_rate ++ "% win rate with " ++ dep.agent ++ " ("
              ++ toString dep.games_with_agent ++ " games)",
            "medium"⟩
    else none)
  (s1 ++ s2 ++ s3 ++ s4).take 5

/-- A weakness dict of `detect_opponent_weaknesses`. -/
structure Weakness where
  category : String
  description : String
  metric : String
  exploitability : String
  recommendation : String
deriving DecidableEq

/-- The poor-maps block of `detect_opponent_weaknesses` (its first loop). -/
def map_weakness_list (opponent : TeamMatchHistory) : List Weakness :=
  opponent.map_stats.filterMap (fun p =>
    if 2 ≤ p.2.played ∧ p.2.win_rate ≤ 40 then
      some ⟨"Map Weakness", "Struggles on " ++ p.1,
            fm1 p.2.win_rate ++ "% win rate on " ++ p.1 ++ " (" ++ toString p.2.wins ++ "-"
              ++ toString ((p.2.played : ℤ) - (p.2.wins : ℤ)) ++ ")",
            "high", "Pick " ++ p.1 ++ " in veto phase"⟩
    else none)

/-- The negative-form block of `detect_opponent_weaknesses`. -/
def form_weakness_list (opponent : TeamMatchHistory) : List Weakness :=
  if (detect_form_patterns opponent).momentum = "negative" then
    [⟨"Poor Form", "Currently in declining form", (detect_form_patterns opponent).description,
      "medium", "Apply early pressure to compound momentum issues"⟩]
  else []

/-- The negative-agent-dependency block of `detect_opponent_weaknesses`. -/
def agent_weakness_list (opponent : TeamMatchHistory) : List Weakness :=
  (detect_agent_dependencies opponent).filterMap (fun dep =>
    if dep.type = "weakness" ∧ dep.difference < -15 then
      some ⟨"Agent Dependency", "Weaker with " ++ dep.agent,
            fmtQ dep.with_agent_win_rate ++ "% win rate with " ++ dep.agent,
            "medium", "Force uncomfortable agent compositions"⟩
    else none)

/-- The over-reliance block of `detect_opponent_weaknesses`: only the single
most-picked agent is examined, and only against the strength-type entry the
dependency scan found for it. -/
def reliance_weakness_list (opponent : TeamMatchHistory) : List Weakness :=
  match pySortOnDesc Prod.snd opponent.agent_picks with
  | [] => []
  | (top_agent, count) :: _ =>
    let total_picks := (opponent.agent_picks.map Prod.snd).sum
    if 0 < total_picks then
      let reliance : ℚ := (count : ℚ) / (total_picks : ℚ) * 100
      if 30 < reliance then
        match (detect_agent_dependencies opponent).find?
            (fun dep => dep.agent == top_agent && dep.type == "strength") with
        | some dep =>
          [⟨"Agent Dependency", "Heavy reliance on " ++ top_agent,
            fm1 reliance ++ "% of picks are " ++ top_agent ++ ", " ++ fm1 dep.difference
              ++ "% higher win rate with " ++ top_agent,
            "high",
            "Banning or countering " ++ top_agent ++ " could significantly impact performance"⟩]
        | none => []
      else []
    else []

/-- `PatternDetector.detect_opponent_weaknesses` (the opponent is `team_b`):
the four blocks in source order, truncated to the top 5. -/
def detect_opponent_weaknesses (data : GridDataPackage) : List Weakness :=
  (map_weakness_list data.team_b ++ form_weakness_list data.team_b
    ++ agent_weakness_list data.team_b ++ reliance_weakness_list data.team_b).take 5

/-- A recommendation dict of `generate_recommendations`. -/
structure Recommendation where
  action : String
  type : String
  reasoning : String
  expected_impact : String
  confidence : String
  grid_data : String
deriving DecidableEq

/-- The `f"{wins}-{played - wins}"` record string looked up from a team's
`map_stats` dict inside `generate_recommendations`. -/
def map_record_str (th : TeamMatchHistory) (name : String) : String :=
  let s := (alGet th.map_stats name).getD mapStatsInit
  toString s.wins ++ "-" ++ toString ((s.played : ℤ) - (s.wins : ℤ))

/-- The `(map_name, win_rate)` list over maps with at least 2 games that
`generate_recommendations` builds before sorting. -/
def maps_with_two_games (th : TeamMatchHistory) : List (String × ℚ) :=
  th.map_stats.filterMap (fun p => if 2 ≤ p.2.played then some (p.1, p.2.win_rate) else none)

/-- The map-pick block of `generate_recommendations`: the nested loop over
our top-3 best maps (descending) and the opponent's top-3 worst maps
(ascending), emitting a pick when the same map clears both thresholds. -/
def map_pick_recs (data : GridDataPackage) : List Recommendation :=
  ((pySortOnDesc Prod.snd (maps_with_two_games data.team_a)).take 3).flatMap (fun q =>
    ((pySortOn Prod.snd (maps_with_two_games data.team_b)).take 3).filterMap (fun r =>
      if q.1 = r.1 ∧ 55 ≤ q.2 ∧ r.2 ≤ 50 then
        some ⟨"Pick " ++ q.1, "map_pick",
              "Strong map advantage - Our " ++ fm1 q.2 ++ "% vs their " ++ fm1 r.2 ++ "%",
              "+" ++ fm1 (q.2 - r.2) ++ "% expected win rate advantage",
              if 20 < q.2 - r.2 then "high" else "medium",
              "Our record: " ++ map_record_str data.team_a q.1 ++ ", Their record: "
                ++ map_record_str data.team_b r.1⟩
      else none))

/-- The map-ban block of `generate_recommendations`. -/
def map_ban_recs (data : GridDataPackage) : List Recommendation :=
  ((pySortOnDesc Prod.snd (maps_with_two_games data.team_b)).take 2).filterMap (fun q =>
    if 60 ≤ q.2 then
      some ⟨"Ban " ++ q.1, "map_ban",
            "Opponent" ++ "'" ++ "s strong map - " ++ fm1 q.2 ++ "% win rate",
            "Removes their best map option", "high",
            "Opponent" ++ "'" ++ "s " ++ q.1 ++ " record: " ++ map_record_str data.team_b q.1⟩
    else none)

/-- The agent-counter block of `generate_recommendations`. -/
def agent_counter_recs (data : GridDataPackage) : List Recommendation :=
  ((detect_agent_dependencies data.team_b).take 2).filterMap (fun dep =>
    if dep.type = "strength" ∧ 20 < dep.difference then
      some ⟨"Counter/Ban " ++ dep.agent, "agent_strategy",
            "Opponent" ++ "'" ++ "s win rate drops " ++ fm1 |dep.difference| ++ "% without "
              ++ dep.agent,
            "Forces suboptimal compositions", "medium",
            "Win rate with " ++ dep.agent ++ ": " ++ fmtQ dep.with_agent_win_rate ++ "% ("
              ++ toString dep.games_with_agent ++ " games)"⟩
    else none)

/-- The tactical star-player block of `generate_recommendations`. -/
def tactical_recs (data : GridDataPackage) : List Recommendation :=
  match get_star_players data.team_b 1 with
  | [] => []
  | star :: _ =>
    [⟨"Focus " ++ star.name, "tactical",
      "Star player averaging " ++ fmtQ star.avg_acs ++ " ACS, " ++ fmtQ star.kd_ratio ++ " K/D",
      "Disrupting their star player reduces team effectiveness", "high",
      star.name ++ ": " ++ fmtQ star.avg_acs ++ " ACS, " ++ fmtQ star.kd_ratio ++ " K/D on "
        ++ star.most_played_agent⟩]

/-- `PatternDetector.generate_recommendations`: map picks, then bans, then
agent counters, then the tactical star-player call, capped at 6. -/
def generate_recommendations (data : GridDataPackage) : List Recommendation :=
  (map_pick_recs data ++ map_ban_recs data ++ agent_counter_recs data
    ++ tactical_recs data).take 6

/-! ## ScoutingReportBuilder (src/analysis/report_builder.py) -/

/-- The `MatchOverview` section of the report. -/
structure MatchOverview where
  team_a_name : String
  team_b_name : String
  team_a_region : Option String
  team_b_region : Option String
  matches_analyzed_team_a : ℕ
  matches_analyzed_team_b : ℕ
  analysis_time_window_days : ℤ
  opponent_overall_win_rate : ℚ
  opponent_recent_form : List String
  opponent_recent_form_summary : String
  head_to_head_record : H2HStats
  data_source : String
deriving DecidableEq

/-- The `OpponentSnapshot` section of the report. -/
structure OpponentSnapshot where
  best_maps : List MapEntry
  worst_maps : List MapEntry
  most_played_agents : List AgentPlayedEntry
  star_players : List StarPlayer
deriving DecidableEq

/-- A `StrengthWeakness` report entry: strengths carry a severity,
weaknesses an exploitability (the other field stays `None`). -/
structure StrengthWeakness where
  category : String
  description : String
  metric : String
  severity : Option String
  exploitability : Option String
deriving DecidableEq

/-- The raw per-team statistics block embedded in the report. -/
structure TeamRawStats where
  overall : OverallStats
  maps : List (String × MapDisplayStats)
  agents : List (String × AgentStats)
  players : List (String × PlayerAggStats)
deriving DecidableEq

/-- The complete `ScoutingReport`; `generated_at` and the timestamp suffix of
`report_id` come from the two `datetime.now()` calls in `build_report`. -/
structure ScoutingReport where
  report_id : String
  generated_at : ℤ
  data_source : String
  match_overview : MatchOverview
  opponent_snapshot : OpponentSnapshot
  key_strengths : List StrengthWeakness
  exploitable_weaknesses : List StrengthWeakness
  coach_recommendations : List Recommendation
  team_a_stats : TeamRawStats
  team_b_stats : TeamRawStats
deriving DecidableEq

/-- `ScoutingReportBuilder._build_match_overview`. -/
def build_match_overview (data : GridDataPackage) : MatchOverview :=
  let opponent_stats := calculate_overall_stats data.team_b
  ⟨data.team_a.team.name, data.team_b.team.name, data.team_a.team.region,
   data.team_b.team.region, data.team_a.total_matches, data.team_b.total_matches,
   data.time_window_days, opponent_stats.win_rate, opponent_stats.recent_form,
   opponent_stats.recent_form_summary, calculate_head_to_head_stats data,
   "GRID Esports API"⟩

/-- `ScoutingReportBuilder._build_opponent_snapshot`. -/
def build_opponent_snapshot (data : GridDataPackage) : OpponentSnapshot :=
  ⟨get_best_maps data.team_b 3, get_worst_maps data.team_b 3,
   get_most_played_agents data.team_b 5, get_star_players data.team_b 2⟩

/-- `ScoutingReportBuilder._build_strengths` (top 3). -/
def build_strengths (data : GridDataPackage) : List StrengthWeakness :=
  ((detect_opponent_strengths data).take 3).map (fun s =>
    ⟨s.category, s.description, s.metric, some s.severity, none⟩)

/-- `ScoutingReportBuilder._build_weaknesses` (top 3). -/
def build_weaknesses (data : GridDataPackage) : List StrengthWeakness :=
  ((detect_opponent_weaknesses data).take 3).map (fun w =>
    ⟨w.category, w.description, w.metric, none, some w.exploitability⟩)

/-- `ScoutingReportBuilder._build_recommendations` (top 5). -/
def build_recommendations (data : GridDataPackage) : List Recommendation :=
  (generate_recommendations data).take 5

/-- The raw stats block `{"overall": ..., "maps": ..., "agents": ..., "players": ...}`. -/
def team_raw_stats (th : TeamMatchHistory) : TeamRawStats :=
  ⟨calculate_overall_stats th, calculate_map_stats th, calculate_agent_stats th,
   calculate_player_stats th⟩

/-- `ScoutingReportBuilder.build_report`; `id_timestamp` and `generated_at`
stand for the two `datetime.now()` readings taken during one run (the first,
as `int(...timestamp())`, is embedded in `report_id`). -/
def build_report (data : GridDataPackage) (id_timestamp generated_at : ℤ) : ScoutingReport :=
  ⟨"scout_" ++ data.team_a.team.short_name ++ "_" ++ data.team_b.team.short_name ++ "_"
     ++ toString id_timestamp,
   generated_at, "GRID Esports API",
   build_match_overview data, build_opponent_snapshot data,
   build_strengths data, build_weaknesses data, build_recommendations data,
   team_raw_stats data.team_a, team_raw_stats data.team_b⟩

/-! ## Concrete inputs used by witnesses and counterexamples -/

/-- A team with an empty roster, for concrete runs. -/
def teamAlpha : Team := ⟨"T1", "Alpha", "ALP", none, []⟩

/-- A second team identity. -/
def teamBeta : Team := ⟨"T2", "Beta", "BET", none, []⟩

/-- A match won by `teamAlpha` on Ascent. -/
def match1 : Match := ⟨"m1", "T1", "T2", some "T1", 1, [⟨"Ascent", 13, 5, "T1"⟩], [], []⟩

/-- A match won by `teamAlpha` on Bind. -/
def match2 : Match := ⟨"m2", "T1", "T2", some "T1", 2, [⟨"Bind", 13, 7, "T1"⟩], [], []⟩

/-- An all-zero history for `teamAlpha`. -/
def thA0 : TeamMatchHistory := ⟨teamAlpha, [], 0, 0, 0, 0, [], [], []⟩

/-- An all-zero history for `teamBeta`. -/
def thB0 : TeamMatchHistory := ⟨teamBeta, [], 0, 0, 0, 0, [], [], []⟩

/-- A data package with no matches and no head-to-head history. -/
def dataEmpty : GridDataPackage := ⟨thA0, thB0, [], 0, 90, "GRID Esports API"⟩

/-- A history whose recent form is `["W", "L", "L"]`: three entries, so the
remainder window past the most-recent 3 is empty. -/
def thFormWLL : TeamMatchHistory := ⟨teamAlpha, [], 0, 0, 0, 0, [], [], ["W", "L", "L"]⟩

/-- A history: overall win rate 50, one map (Ascent) with 2 games, 2 wins,
map win rate 100 — a map dependency of difference +50. -/
def thMapDep : TeamMatchHistory :=
  ⟨teamAlpha, [], 4, 2, 2, 50, [("Ascent", ⟨2, 2, 26, 10, 100⟩)], [], []⟩

/-- The strength dependency entry `detect_map_dependencies` emits for
`thMapDep`. -/
def mapDepEntry : MapDependency :=
  ⟨"Ascent", 100, 50, 50, "strength", 2, "Strong on Ascent (100.0% vs 50.0% overall)"⟩

/-- Roster player "Zed" (first in the roster and the stats tables). -/
def playerZed : Player := ⟨"z1", "Zed"⟩

/-- Roster player "Alice" (alphabetically before Zed, listed after). -/
def playerAlice : Player := ⟨"a1", "Alice"⟩

/-- A team whose roster lists Zed before Alice. -/
def teamStars : Team := ⟨"T1", "Alpha", "ALP", none, [playerZed, playerAlice]⟩

/-- One match in which Zed and Alice post identical statistics, Zed first. -/
def matchStars : Match :=
  ⟨"m3", "T1", "T2", some "T1", 1, [],
   [⟨"z1", "Zed", "Jett", 10, 10, 2, 200, 150, 0, 0⟩,
    ⟨"a1", "Alice", "Sova", 10, 10, 2, 200, 150, 0, 0⟩], []⟩

/-- History for `teamStars` with the single match `matchStars`: both players
score 200·0.4 + 1·100·0.3 + 150·0.2 + 0 = 140, an exact tie. -/
def thStars : TeamMatchHistory := ⟨teamStars, [matchStars], 1, 1, 0, 100, [], [], ["W"]⟩

/-- A history with exactly two qualifying maps (both played twice): Ascent
won 2-0, Bind lost 0-2. -/
def thTwoMaps : TeamMatchHistory :=
  ⟨teamAlpha, [], 4, 2, 2, 50,
   [("Ascent", ⟨2, 2, 26, 10, 100⟩), ("Bind", ⟨2, 0, 10, 26, 0⟩)], [], []⟩

/-- Our team for the C7 counterexample: three maps at 100% win rate and
"Haven" at 60% (5 games) — Haven clears the claim's ≥55% bar but is pushed
out of the code's top-3 cut. -/
def thOurFour : TeamMatchHistory :=
  ⟨teamAlpha, [], 11, 9, 2, 80,
   [("Split", ⟨2, 2, 26, 10, 100⟩), ("Lotus", ⟨2, 2, 26, 10, 100⟩),
    ("Pearl", ⟨2, 2, 26, 10, 100⟩), ("Haven", ⟨5, 3, 55, 45, 60⟩)], [], []⟩

/-- The opponent for the C7 counterexample: only "Haven", lost 0-2. -/
def thOppHaven : TeamMatchHistory :=
  ⟨teamBeta, [], 2, 0, 2, 0, [("Haven", ⟨2, 0, 10, 26, 0⟩)], [], []⟩

/-- The C7 counterexample package. -/
def dataC7 : GridDataPackage := ⟨thOurFour, thOppHaven, [], 0, 90, "GRID Esports API"⟩

/-- A package where our Ascent (100%, 2 games) meets the opponent's Ascent
(0%, 2 games): the map-pick recommendation fires. -/
def dataC7w : GridDataPackage :=
  ⟨⟨teamAlpha, [], 2, 2, 0, 100, [("Ascent", ⟨2, 2, 26, 10, 100⟩)], [], []⟩,
   ⟨teamBeta, [], 2, 0, 2, 0, [("Ascent", ⟨2, 0, 10, 26, 0⟩)], [], []⟩,
   [], 0, 90, "GRID Esports API"⟩

/-- The opponent team for the C8 inputs, with a one-player roster. -/
def teamB8 : Team := ⟨"T2", "Beta", "BET", none, [⟨"p1", "P1"⟩]⟩

/-- A match won by teamB8 with agent "B" picked. -/
def mWin1 : Match := ⟨"w1", "T1", "T2", some "T2", 1, [], [], [⟨"p1", "P1", "B", "Ascent"⟩]⟩

/-- A second win with agent "B". -/
def mWin2 : Match := ⟨"w2", "T1", "T2", some "T2", 2, [], [], [⟨"p1", "P1", "B", "Ascent"⟩]⟩

/-- A third win with agent "B". -/
def mWin3 : Match := ⟨"w3", "T1", "T2", some "T2", 3, [], [], [⟨"p1", "P1", "B", "Ascent"⟩]⟩

/-- A loss with agent "A". -/
def mLoss4 : Match := ⟨"l4", "T1", "T2", some "T1", 4, [], [], [⟨"p1", "P1", "A", "Ascent"⟩]⟩

/-- A second loss with agent "A". -/
def mLoss5 : Match := ⟨"l5", "T1", "T2", some "T1", 5, [], [], [⟨"p1", "P1", "A", "Ascent"⟩]⟩

/-- The strength dependency found for agent "B" over those five matches:
3-0 with B against a 60% overall win rate. -/
def depB8 : AgentDependency :=
  ⟨"B", 100, 60, 40, 3, "strength", "Win rate increases by 40.0% with B"⟩

/-- C8 counterexample opponent: the most-picked agent "A" (8 of 20 picks,
40%) has no dependency entry (it appears in only 2 matches), while "B" holds
7 of 20 picks (35% > 30%) and is a strength dependency. -/
def thB8 : TeamMatchHistory :=
  ⟨teamB8, [mWin1, mWin2, mWin3, mLoss4, mLoss5], 5, 3, 2, 60, [],
   [("A", 8), ("B", 7), ("C", 5)], []⟩

/-- The C8 counterexample package. -/
def dataC8 : GridDataPackage := ⟨thA0, thB8, [], 0, 90, "GRID Esports API"⟩

/-- C8 witness opponent: the most-picked agent is "B" itself (8 of 20, 40%),
the strength dependency — the over-reliance weakness fires. -/
def thB8w : TeamMatchHistory :=
  ⟨teamB8, [mWin1, mWin2, mWin3, mLoss4, mLoss5], 5, 3, 2, 60, [],
   [("B", 8), ("A", 7), ("C", 5)], []⟩

/-- The C8 witness package. -/
def dataC8w : GridDataPackage := ⟨thA0, thB8w, [], 0, 90, "GRID Esports API"⟩

/-- Zed's scored entry for `thStars`. -/
def zedStar : StarPlayer := ⟨"Zed", 140, 200, 1, 150, "Jett", 0⟩

/-- Alice's scored entry for `thStars`. -/
def aliceStar : StarPlayer := ⟨"Alice", 140, 200, 1, 150, "Sova", 0⟩

/-! ## Sorting helper lemmas -/

theorem pySortOn_perm {α β : Type} [LinearOrder β] (key : α → β) (l : List α) :
    (pySortOn key l).Perm l :=
  List.mergeSort_perm l _

theorem pySortOnDesc_perm {α β : Type} [LinearOrder β] (key : α → β) (l : List α) :
    (pySortOnDesc key l).Perm l :=
  List.mergeSort_perm l _

theorem pySortOn_pairwise {α β : Type} [LinearOrder β] (key : α → β) (l : List α) :
    (pySortOn key l).Pairwise (fun a b => key a ≤ key b) := by
  have h := @List.sorted_mergeSort α (fun a b : α => decide (key a ≤ key b))
    (fun a b c hab hbc => by
      simp only [decide_eq_true_eq] at *
      exact le_trans hab hbc)
    (fun a b => by
      simp only [Bool.or_eq_true, decide_eq_true_eq]
      exact le_total (key a) (key b)) l
  exact h.imp (fun hab => by simpa using hab)

theorem pySortOnDesc_pairwise {α β : Type} [LinearOrder β] (key : α → β) (l : List α) :
    (pySortOnDesc key l).Pairwise (fun a b => key b ≤ key a) := by
  have h := @List.sorted_mergeSort α (fun a b : α => decide (key b ≤ key a))
    (fun a b c hab hbc => by
      simp only [decide_eq_true_eq] at *
      exact le_trans hbc hab)
    (fun a b => by
      simp only [Bool.or_eq_true, decide_eq_true_eq]
      exact le_total (key b) (key a)) l
  exact h.imp (fun hab => by simpa using hab)

/-! ## Evaluation of `_compute_team_history` on two won matches

`teamAlpha` wins both matches, one map each (Ascent, then Bind). The
per-map win-rate loop shadows the Python local `wins`, so the stored `wins`
is Bind's map-win count 1, while `win_rate` (computed before the shadowing)
is 100 and `losses` is 0. -/
theorem compute_team_history_eval :
    compute_team_history teamAlpha [match1, match2] =
      ⟨teamAlpha, [match1, match2], 2, 1, 0, 100,
       [("Ascent", ⟨1, 1, 13, 5, 100⟩), ("Bind", ⟨1, 1, 13, 7, 100⟩)], [],
       ["W", "W"]⟩ := by
  simp only [compute_team_history, update_map_stats, alSet, alGet, mapStatsInit,
    pySortOnDesc, List.mergeSort, teamAlpha, match1, match2, List.foldl_cons, List.foldl_nil,
    List.map_cons, List.map_nil, List.countP_cons, List.countP_nil, List.length_cons,
    List.length_nil, List.isEmpty_cons]
  simp

/-- C1: the claim reads "win_rate equals the wins field divided by the
total_matches field times 100"; on two won matches over two distinct maps the
stored `wins` field is 1 (the last map's win count, because the per-map
win-rate loop in `_compute_team_history` shadows the `wins` local), while
`win_rate` is 100 — so `win_rate ≠ wins / total_matches × 100` (the latter is
50). The bounds `win_rate ∈ [0, 100]` and the zero-match case do hold; the
slip is in the stored `wins` field, contradicting the computation the same
function performs three lines earlier. -/
theorem c1_win_rate_vs_wins_field :
    (compute_team_history teamAlpha [match1, match2]).win_rate = 100 ∧
    (compute_team_history teamAlpha [match1, match2]).total_matches = 2 ∧
    (compute_team_history teamAlpha [match1, match2]).wins = 1 ∧
    ((compute_team_history teamAlpha [match1, match2]).wins : ℚ)
        / ((compute_team_history teamAlpha [match1, match2]).total_matches : ℚ) * 100 = 50 := by
  rw [compute_team_history_eval]
  norm_num

/-- C10: on the same two won matches, the aggregation step stores
`wins = 1`, `losses = 0`, `total_matches = 2`: `wins + losses ≠ total_matches`
and `wins` differs from the number of matches whose winner id is the team's id
(which is 2) — the `wins` local is shadowed by the per-map win-rate loop
before being stored. -/
theorem c10_wins_plus_losses_not_total :
    (compute_team_history teamAlpha [match1, match2]).wins
        + (compute_team_history teamAlpha [match1, match2]).losses ≠
      (compute_team_history teamAlpha [match1, match2]).total_matches ∧
    (compute_team_history teamAlpha [match1, match2]).wins ≠
      [match1, match2].countP (fun m => decide (m.winner_team_id = some teamAlpha.id)) := by
  rw [compute_team_history_eval]
  constructor
  · norm_num
  · simp [match1, match2, teamAlpha]

/-- C9: with an empty head-to-head list, head-to-head statistics are the
all-zero record with an empty per-map table; the computation is a total
function, so no error is possible. -/
theorem c9_head_to_head_empty (data : GridDataPackage)
    (h : data.head_to_head_matches = []) :
    calculate_head_to_head_stats data = ⟨0, 0, 0, 0, []⟩ := by
  simp [calculate_head_to_head_stats, h]

/-- C9 witness: the empty package hits the hypothesis and the zero record. -/
theorem c9_head_to_head_empty_witness :
    dataEmpty.head_to_head_matches = [] ∧
    calculate_head_to_head_stats dataEmpty = ⟨0, 0, 0, 0, []⟩ :=
  ⟨rfl, c9_head_to_head_empty dataEmpty rfl⟩

/-- C2 amended: two runs of `build_report` on the same data package agree on
every field except `report_id` and `generated_at`, whatever the two pairs of
clock readings are. (All sorts and dict iterations in the pipeline are
deterministic given the package; the Python set iteration order in
`detect_agent_dependencies` is fixed within one process and modelled as
first-insertion order.) -/
theorem c2_build_report_deterministic (data : GridDataPackage) (t1 t2 t1' t2' : ℤ) :
    (build_report data t1 t2).data_source = (build_report data t1' t2').data_source ∧
    (build_report data t1 t2).match_overview = (build_report data t1' t2').match_overview ∧
    (build_report data t1 t2).opponent_snapshot = (build_report data t1' t2').opponent_snapshot ∧
    (build_report data t1 t2).key_strengths = (build_report data t1' t2').key_strengths ∧
    (build_report data t1 t2).exploitable_weaknesses
      = (build_report data t1' t2').exploitable_weaknesses ∧
    (build_report data t1 t2).coach_recommendations
      = (build_report data t1' t2').coach_recommendations ∧
    (build_report data t1 t2).team_a_stats = (build_report data t1' t2').team_a_stats ∧
    (build_report data t1 t2).team_b_stats = (build_report data t1' t2').team_b_stats :=
  ⟨rfl, rfl, rfl, rfl, rfl, rfl, rfl, rfl⟩

/-- C2 counterexample: `report_id` embeds `int(datetime.now().timestamp())`,
so two runs on the same data package at clock readings 0 and 1 differ in the
`report_id` field as well, not only in the generation timestamp field. -/
theorem c2_report_id_differs :
    (build_report dataEmpty 0 0).report_id ≠ (build_report dataEmpty 1 1).report_id := by
  decide

/-- C4: on the form `["W", "L", "L"]` the remainder window past the 3 most
recent results is empty; the source sets `older_total` to 1 (its
`else 0.5` default for `older_rate` is dead code), so `older_rate = 0/1 = 0`
and the recent fraction 1/3 exceeds it by more than 0.2, classifying
"improving"/"positive" — the claim's 0.5 default would give 1/3 vs 0.5,
within ±0.2, hence "stable"/"neutral". -/
theorem c4_form_empty_remainder :
    (detect_form_patterns thFormWLL).trend = "improving" ∧
    (detect_form_patterns thFormWLL).momentum = "positive" ∧
    thFormWLL.recent_form.length = 3 := by
  refine ⟨?_, ?_, rfl⟩ <;>
    · simp [detect_form_patterns, streak_length, thFormWLL]
      norm_num

/-- C6: every entry emitted by `detect_map_dependencies` comes from a map
with at least 2 games whose true difference (raw map win rate minus raw
overall win rate) strictly exceeds 15 in absolute value; the classification
is "strength" exactly when that difference is positive and "weakness"
otherwise; the stored `difference` field is the rounded difference, and the
returned list is ordered by the absolute value of that field, descending. -/
theorem c6_map_dependencies_sound (th : TeamMatchHistory) :
    (∀ e ∈ detect_map_dependencies th, ∃ s : MapStats, (e.map, s) ∈ th.map_stats ∧
        2 ≤ s.played ∧ e.games_played = s.played ∧
        15 < |s.win_rate - th.win_rate| ∧
        e.type = (if 0 < s.win_rate - th.win_rate then "strength" else "weakness") ∧
        e.difference = pyRound (s.win_rate - th.win_rate) 1) ∧
    (detect_map_dependencies th).Pairwise (fun a b => |b.difference| ≤ |a.difference|) := by
  constructor
  · intro e he
    simp only [detect_map_dependencies] at he
    have he' := (pySortOnDesc_perm (fun d : MapDependency => |d.difference|) _).mem_iff.mp he
    obtain ⟨p, hp, hfp⟩ := List.mem_filterMap.mp he'
    by_cases h2 : p.2.played < 2
    · rw [if_pos h2] at hfp
      simp at hfp
    · by_cases h15 : 15 < |p.2.win_rate - th.win_rate|
      · rw [if_neg h2, if_pos h15] at hfp
        simp only [Option.some.injEq] at hfp
        subst hfp
        exact ⟨p.2, by simpa using hp, by omega, rfl, h15, rfl, rfl⟩
      · rw [if_neg h2, if_neg h15] at hfp
        simp at hfp
  · simp only [detect_map_dependencies]
    exact pySortOnDesc_pairwise _ _

/-- Evaluation helper: the single dependency `detect_map_dependencies` finds
for `thMapDep`. -/
theorem detect_map_dependencies_thMapDep :
    detect_map_dependencies thMapDep = [mapDepEntry] := by
  have hf100 : fm1 (100 : ℚ) = "100.0" := by
    simp only [fm1, fmtQ, pyRound, rnd2]
    norm_num
    decide
  have hf50 : fm1 (50 : ℚ) = "50.0" := by
    simp only [fm1, fmtQ, pyRound, rnd2]
    norm_num
    decide
  have h100 : pyRound (100 : ℚ) 1 = 100 := by
    simp only [pyRound, rnd2]; norm_num
  have h50 : pyRound (50 : ℚ) 1 = 50 := by
    simp only [pyRound, rnd2]; norm_num
  simp only [detect_map_dependencies, thMapDep, List.filterMap_cons, List.filterMap_nil,
    mapDepEntry, pySortOnDesc, List.mergeSort]
  norm_num [hf100, hf50, h100, h50]
  decide

/-- C6 witness: the Ascent dependency of `thMapDep` satisfies the theorem's
conclusion at a concrete input. -/
theorem c6_map_dependencies_sound_witness :
    (mapDepEntry ∈ detect_map_dependencies thMapDep) ∧
    (∃ s : MapStats, (mapDepEntry.map, s) ∈ thMapDep.map_stats ∧
        2 ≤ s.played ∧ mapDepEntry.games_played = s.played ∧
        15 < |s.win_rate - thMapDep.win_rate| ∧
        mapDepEntry.type
          = (if 0 < s.win_rate - thMapDep.win_rate then "strength" else "weakness") ∧
        mapDepEntry.difference = pyRound (s.win_rate - thMapDep.win_rate) 1) := by
  have hmem : mapDepEntry ∈ detect_map_dependencies thMapDep := by
    rw [detect_map_dependencies_thMapDep]
    exact List.mem_singleton_self _
  exact ⟨hmem, (c6_map_dependencies_sound thMapDep).1 mapDepEntry hmem⟩

/-- A kept element of a stable descending top-`n` selection has a key at
least as large as any dropped element's. -/
theorem sortDesc_take_ge {α β : Type} [LinearOrder β] (key : α → β) (l : List α) (n : ℕ)
    (p : α) (hp : p ∈ l) (hnp : p ∉ (pySortOnDesc key l).take n) :
    ∀ e ∈ (pySortOnDesc key l).take n, key p ≤ key e := by
  intro e he
  have hpD : p ∈ pySortOnDesc key l := (pySortOnDesc_perm key l).mem_iff.mpr hp
  have hsplit : (pySortOnDesc key l).take n ++ (pySortOnDesc key l).drop n
      = pySortOnDesc key l := List.take_append_drop n _
  have hpd : p ∈ (pySortOnDesc key l).drop n := by
    rcases List.mem_append.mp (by rw [hsplit]; exact hpD) with h | h
    · exact absurd h hnp
    · exact h
  have hpair : ((pySortOnDesc key l).take n ++ (pySortOnDesc key l).drop n).Pairwise
      (fun a b => key b ≤ key a) := by
    rw [hsplit]; exact pySortOnDesc_pairwise key l
  exact (List.pairwise_append.mp hpair).2.2 e he p hpd

/-- C5 amended: every returned star entry's score equals the weighted formula
0.4·ACS + 0.3·(K/D·100) + 0.2·ADR + 0.1·(FK−FD)·5 applied to its own carried
statistics; the returned list is sorted by score descending (ties kept in the
player table's first-appearance order, the source sorts by score alone); and
it is a top-`n` selection: no scored player outside it beats anyone inside. -/
theorem c5_star_players (th : TeamMatchHistory) (n : ℕ) :
    (∀ e ∈ get_star_players th n,
        e.score = e.avg_acs * (4/10) + e.kd_ratio * 100 * (3/10) + e.avg_adr * (2/10)
          + (e.fk_fd_diff : ℚ) * 5 * (1/10)) ∧
    (get_star_players th n).Pairwise (fun a b => b.score ≤ a.score) ∧
    (∀ p ∈ scored_players th, p ∉ get_star_players th n →
      ∀ e ∈ get_star_players th n, p.score ≤ e.score) := by
  refine ⟨?_, ?_, ?_⟩
  · intro e he
    have h1 : e ∈ pySortOnDesc StarPlayer.score (scored_players th) :=
      (List.take_sublist n _).subset he
    have h2 : e ∈ scored_players th := (pySortOnDesc_perm _ _).mem_iff.mp h1
    obtain ⟨p, _, hpe⟩ := List.mem_map.mp h2
    subst hpe
    rfl
  · exact List.Pairwise.sublist (List.take_sublist _ _) (pySortOnDesc_pairwise _ _)
  · intro p hp hnp
    exact sortDesc_take_ge StarPlayer.score (scored_players th) n p hp hnp

/-- Evaluation helper: the scored players of `thStars`, in first-appearance
order, both with score 140. -/
theorem scored_players_thStars :
    scored_players thStars = [zedStar, aliceStar] := by
  simp only [scored_players, calculate_player_stats, player_accs, accum_player_stat,
    playerAccInit, alSet, alGet, pyMaxBy, thStars, teamStars, matchStars, playerZed,
    playerAlice, zedStar, aliceStar, List.foldl_cons, List.foldl_nil, List.filterMap_cons,
    List.filterMap_nil, List.map_cons, List.map_nil]
  simp [pyRound, rnd2]
  norm_num

/-- Evaluation helper: the stable score sort keeps the tied entries in
first-appearance order. -/
theorem sorted_stars_thStars :
    pySortOnDesc StarPlayer.score (scored_players thStars) = [zedStar, aliceStar] := by
  rw [scored_players_thStars]
  simp only [pySortOnDesc, List.mergeSort, List.merge, zedStar, aliceStar]
  norm_num

/-- C5 counterexample: with two players tied at score 140 and first seen in
the order Zed, Alice, `get_star_players` returns them in that order even
though "Alice" precedes "Zed" alphabetically — there is no tie-break by
player name. -/
theorem c5_no_name_tiebreak :
    (get_star_players thStars 2).map StarPlayer.name = ["Zed", "Alice"] ∧
    (get_star_players thStars 2).map StarPlayer.score = [140, 140] ∧
    "Alice" < "Zed" := by
  have h : get_star_players thStars 2 = [zedStar, aliceStar] := by
    simp only [get_star_players, sorted_stars_thStars]
    rfl
  rw [h]
  refine ⟨rfl, rfl, ?_⟩
  rw [String.lt_iff_toList_lt]
  decide

/-- C5 witness: at `thStars` with top-1 selection, Alice is a scored player
left out of the returned list, and the theorem's top-`n` conclusion applies
to her concretely. -/
theorem c5_star_players_witness :
    (aliceStar ∈ scored_players thStars) ∧
    (aliceStar ∉ get_star_players thStars 1) ∧
    (∀ e ∈ get_star_players thStars 1, aliceStar.score ≤ e.score) := by
  have hstar1 : get_star_players thStars 1 = [zedStar] := by
    simp only [get_star_players, sorted_stars_thStars]
    rfl
  have hmem : aliceStar ∈ scored_players thStars := by
    rw [scored_players_thStars]; simp
  have hnot : aliceStar ∉ get_star_players thStars 1 := by
    rw [hstar1]
    simp [zedStar, aliceStar]
  exact ⟨hmem, hnot, (c5_star_players thStars 1).2.2 aliceStar hmem hnot⟩

/-- Few elements of `l` have a key strictly above that of an element kept by
the stable descending top-`n` selection: fewer than `n`. -/
theorem sortDesc_countP_gt {α β : Type} [LinearOrder β] (key : α → β) (l : List α) (n : ℕ)
    (x : α) (hx : x ∈ (pySortOnDesc key l).take n) :
    l.countP (fun y => decide (key x < key y)) < n := by
  have hperm := pySortOnDesc_perm key l
  have hpair := pySortOnDesc_pairwise key l
  have hsplit : (pySortOnDesc key l).take n ++ (pySortOnDesc key l).drop n
      = pySortOnDesc key l := List.take_append_drop n _
  have hcount : l.countP (fun y => decide (key x < key y))
      = (pySortOnDesc key l).countP (fun y => decide (key x < key y)) :=
    (hperm.countP_eq _).symm
  have happ : (pySortOnDesc key l).countP (fun y => decide (key x < key y))
      = ((pySortOnDesc key l).take n).countP (fun y => decide (key x < key y))
        + ((pySortOnDesc key l).drop n).countP (fun y => decide (key x < key y)) := by
    conv_lhs => rw [← hsplit]
    rw [List.countP_append]
  have hdrop : ((pySortOnDesc key l).drop n).countP (fun y => decide (key x < key y)) = 0 := by
    rw [List.countP_eq_zero]
    intro y hy
    have hcross := (List.pairwise_append.mp (by rw [hsplit]; exact hpair)).2.2 x hx y hy
    simp only [decide_eq_true_eq]
    exact not_lt.mpr hcross
  have htake : ((pySortOnDesc key l).take n).countP (fun y => decide (key x < key y))
      < ((pySortOnDesc key l).take n).length := by
    rcases lt_or_eq_of_le (List.countP_le_length _) with h | h
    · exact h
    · exfalso
      have := (List.countP_eq_length.mp h) x hx
      simp at this
  have hlen : ((pySortOnDesc key l).take n).length ≤ n := by
    simp [List.length_take]
  omega

/-- Ascending counterpart of `sortDesc_countP_gt`. -/
theorem sortAsc_countP_lt {α β : Type} [LinearOrder β] (key : α → β) (l : List α) (n : ℕ)
    (x : α) (hx : x ∈ (pySortOn key l).take n) :
    l.countP (fun y => decide (key y < key x)) < n := by
  have hperm := pySortOn_perm key l
  have hpair := pySortOn_pairwise key l
  have hsplit : (pySortOn key l).take n ++ (pySortOn key l).drop n
      = pySortOn key l := List.take_append_drop n _
  have hcount : l.countP (fun y => decide (key y < key x))
      = (pySortOn key l).countP (fun y => decide (key y < key x)) :=
    (hperm.countP_eq _).symm
  have happ : (pySortOn key l).countP (fun y => decide (key y < key x))
      = ((pySortOn key l).take n).countP (fun y => decide (key y < key x))
        + ((pySortOn key l).drop n).countP (fun y => decide (key y < key x)) := by
    conv_lhs => rw [← hsplit]
    rw [List.countP_append]
  have hdrop : ((pySortOn key l).drop n).countP (fun y => decide (key y < key x)) = 0 := by
    rw [List.countP_eq_zero]
    intro y hy
    have hcross := (List.pairwise_append.mp (by rw [hsplit]; exact hpair)).2.2 x hx y hy
    simp only [decide_eq_true_eq]
    exact not_lt.mpr hcross
  have htake : ((pySortOn key l).take n).countP (fun y => decide (key y < key x))
      < ((pySortOn key l).take n).length := by
    rcases lt_or_eq_of_le (List.countP_le_length _) with h | h
    · exact h
    · exfalso
      have := (List.countP_eq_length.mp h) x hx
      simp at this
  have hlen : ((pySortOn key l).take n).length ≤ n := by
    simp [List.length_take]
  omega

/-- A list where every element satisfies one of three Boolean predicates is
no longer than the sum of the three counts. -/
theorem length_le_countP_three {α : Type} (p q r : α → Bool) :
    ∀ l : List α, (∀ y ∈ l, p y = true ∨ q y = true ∨ r y = true) →
      l.length ≤ l.countP p + l.countP q + l.countP r := by
  intro l
  induction l with
  | nil => simp
  | cons a t ih =>
    intro h
    have ha := h a (List.mem_cons_self a t)
    have ht := ih (fun y hy => h y (List.mem_cons_of_mem a hy))
    simp only [List.countP_cons, List.length_cons]
    rcases ha with h1 | h1 | h1 <;> rw [h1] <;> simp only [if_true] <;> split_ifs <;> omega

/-- In a duplicate-free list at most one element equals `x`. -/
theorem countP_eq_le_one {α : Type} [DecidableEq α] :
    ∀ l : List α, l.Nodup → ∀ x : α, l.countP (fun y => decide (y = x)) ≤ 1 := by
  intro l
  induction l with
  | nil => simp
  | cons a t ih =>
    intro hl x
    rcases List.nodup_cons.mp hl with ⟨ha, ht⟩
    rw [List.countP_cons]
    by_cases hax : a = x
    · subst hax
      have hz : t.countP (fun y => decide (y = a)) = 0 := by
        rw [List.countP_eq_zero]
        intro y hy
        simp only [decide_eq_true_eq]
        exact fun h => ha (h ▸ hy)
      simp [hz]
    · simpa [hax] using ih ht x

/-- Two entries of a dict (keys duplicate-free) with the same key are equal. -/
theorem entry_eq_of_fst_eq {γ : Type} :
    ∀ {l : List (String × γ)}, (l.map Prod.fst).Nodup →
      ∀ {p q : String × γ}, p ∈ l → q ∈ l → p.1 = q.1 → p = q := by
  intro l
  induction l with
  | nil => intro _ p q hp; cases hp
  | cons a t ih =>
    intro hl p q hp hq hk
    rw [List.map_cons] at hl
    rcases List.nodup_cons.mp hl with ⟨ha, ht⟩
    rcases List.mem_cons.mp hp with rfl | hp' <;> rcases List.mem_cons.mp hq with rfl | hq'
    · rfl
    · exact absurd (hk ▸ List.mem_map_of_mem Prod.fst hq') ha
    · exact absurd (hk ▸ List.mem_map_of_mem Prod.fst hp') (hk ▸ ha)
    · exact ih ht hp' hq' hk

/-- The qualified-map dict keeps key uniqueness from the raw `map_stats`. -/
theorem qualified_maps_keys_nodup (th : TeamMatchHistory)
    (h : (th.map_stats.map Prod.fst).Nodup) :
    ((qualified_maps th).map Prod.fst).Nodup := by
  have h1 : (calculate_map_stats th).map Prod.fst = th.map_stats.map Prod.fst := by
    simp only [calculate_map_stats, List.map_map]
    rfl
  have h2 : ((qualified_maps th).map Prod.fst).Sublist
      ((calculate_map_stats th).map Prod.fst) :=
    (List.filter_sublist _).map _
  rw [h1] at h2
  exact h.sublist h2

/-- C3 amended: `get_best_maps` / `get_worst_maps` are sorted by
`(win_rate, avg_round_differential)` descending resp. ascending; and they
share no map entry whenever the map keys are unique, at least `2·top_n` maps
qualify, and no two qualifying maps tie on the sort key (with fewer
qualifying maps, or with ties across the cut, the two top-`top_n` selections
can overlap — the source's own claim of disjointness from 2 qualifying maps
on is refuted by `c3_best_worst_overlap`). -/
theorem c3_best_worst_maps (th : TeamMatchHistory) (n : ℕ) :
    (get_best_maps th n).Pairwise (fun a b =>
      toLex (b.win_rate, b.avg_round_diff) ≤ toLex (a.win_rate, a.avg_round_diff)) ∧
    (get_worst_maps th n).Pairwise (fun a b =>
      toLex (a.win_rate, a.avg_round_diff) ≤ toLex (b.win_rate, b.avg_round_diff)) ∧
    ((th.map_stats.map Prod.fst).Nodup →
      (qualified_maps th).Pairwise (fun p q => mapSortKey p ≠ mapSortKey q) →
      2 * n ≤ (qualified_maps th).length →
      ∀ e1 ∈ get_best_maps th n, ∀ e2 ∈ get_worst_maps th n, e1.map ≠ e2.map) := by
  refine ⟨?_, ?_, ?_⟩
  · rw [get_best_maps, List.pairwise_map]
    exact List.Pairwise.sublist (List.take_sublist _ _) (pySortOnDesc_pairwise mapSortKey _)
  · rw [get_worst_maps, List.pairwise_map]
    exact List.Pairwise.sublist (List.take_sublist _ _) (pySortOn_pairwise mapSortKey _)
  · intro hnd hkeys hlen e1 he1 e2 he2 heq
    obtain ⟨p, hp, hpe⟩ := List.mem_map.mp he1
    obtain ⟨q, hq, hqe⟩ := List.mem_map.mp he2
    have hmape1 : e1.map = p.1 := by rw [← hpe]
    have hmape2 : e2.map = q.1 := by rw [← hqe]
    have hpq1 : p.1 = q.1 := by rw [← hmape1, ← hmape2, heq]
    have hpQ : p ∈ qualified_maps th :=
      (pySortOnDesc_perm mapSortKey _).mem_iff.mp ((List.take_sublist n _).subset hp)
    have hqQ : q ∈ qualified_maps th :=
      (pySortOn_perm mapSortKey _).mem_iff.mp ((List.take_sublist n _).subset hq)
    have hQnd : ((qualified_maps th).map Prod.fst).Nodup := qualified_maps_keys_nodup th hnd
    have hpq : p = q := entry_eq_of_fst_eq hQnd hpQ hqQ hpq1
    subst hpq
    have hgt := sortDesc_countP_gt mapSortKey (qualified_maps th) n p hp
    have hlt := sortAsc_countP_lt mapSortKey (qualified_maps th) n p hq
    have hone : (qualified_maps th).countP (fun y => decide (y = p)) ≤ 1 :=
      countP_eq_le_one _ (hQnd.of_map) p
    have htri : ∀ y ∈ qualified_maps th,
        (decide (mapSortKey p < mapSortKey y)) = true ∨
        (decide (mapSortKey y < mapSortKey p)) = true ∨
        (decide (y = p)) = true := by
      intro y hy
      by_cases hyp : y = p
      · exact Or.inr (Or.inr (by simp [hyp]))
      · have hsymm : Symmetric (fun p q : String × MapDisplayStats =>
            mapSortKey p ≠ mapSortKey q) := fun _ _ h hk => h hk.symm
        have hne : mapSortKey y ≠ mapSortKey p :=
          List.Pairwise.forall hsymm hkeys hy hpQ hyp
        rcases lt_or_gt_of_ne hne with h | h
        · exact Or.inr (Or.inl (by simpa using h))
        · exact Or.inl (by simpa using h)
    have hsum := length_le_countP_three _ _ _ (qualified_maps th) htri
    omega

/-- Evaluation helper: the qualified maps of `thTwoMaps`. -/
theorem qualified_maps_thTwoMaps :
    qualified_maps thTwoMaps =
      [("Ascent", ⟨2, 2, 0, 100, 26, 10, 16, 8⟩), ("Bind", ⟨2, 0, 2, 0, 10, 26, -16, -8⟩)] := by
  simp only [qualified_maps, calculate_map_stats, thTwoMaps, List.map_cons, List.map_nil,
    List.filter_cons, List.filter_nil, pyRound, rnd2]
  norm_num

/-- Evaluation helper: descending sort of the two qualified maps. -/
theorem sortDesc_thTwoMaps :
    pySortOnDesc mapSortKey (qualified_maps thTwoMaps) =
      [("Ascent", ⟨2, 2, 0, 100, 26, 10, 16, 8⟩), ("Bind", ⟨2, 0, 2, 0, 10, 26, -16, -8⟩)] := by
  rw [qualified_maps_thTwoMaps]
  simp only [pySortOnDesc, List.mergeSort, List.merge, mapSortKey]
  norm_num [Prod.Lex.le_iff]

/-- Evaluation helper: ascending sort of the two qualified maps. -/
theorem sortAsc_thTwoMaps :
    pySortOn mapSortKey (qualified_maps thTwoMaps) =
      [("Bind", ⟨2, 0, 2, 0, 10, 26, -16, -8⟩), ("Ascent", ⟨2, 2, 0, 100, 26, 10, 16, 8⟩)] := by
  rw [qualified_maps_thTwoMaps]
  simp only [pySortOn, List.mergeSort, List.merge, mapSortKey]
  norm_num [Prod.Lex.le_iff]

/-- C3 counterexample: with exactly 2 qualifying maps (not "fewer than 2"),
the default top-3 best and worst lists contain the same two maps — they share
every entry. -/
theorem c3_best_worst_overlap :
    (qualified_maps thTwoMaps).length = 2 ∧
    (get_best_maps thTwoMaps 3).map MapEntry.map = ["Ascent", "Bind"] ∧
    (get_worst_maps thTwoMaps 3).map MapEntry.map = ["Bind", "Ascent"] := by
  refine ⟨by rw [qualified_maps_thTwoMaps]; rfl, ?_, ?_⟩
  · rw [get_best_maps, sortDesc_thTwoMaps]
    rfl
  · rw [get_worst_maps, sortAsc_thTwoMaps]
    rfl

/-- C3 witness: at `thTwoMaps` with `top_n = 1` the hypotheses hold (unique
keys, no key ties, 2·1 ≤ 2 qualifying maps) and best and worst are disjoint. -/
theorem c3_best_worst_maps_witness :
    (thTwoMaps.map_stats.map Prod.fst).Nodup ∧
    (qualified_maps thTwoMaps).Pairwise (fun p q => mapSortKey p ≠ mapSortKey q) ∧
    2 * 1 ≤ (qualified_maps thTwoMaps).length ∧
    (∀ e1 ∈ get_best_maps thTwoMaps 1, ∀ e2 ∈ get_worst_maps thTwoMaps 1,
      e1.map ≠ e2.map) := by
  have h1 : (thTwoMaps.map_stats.map Prod.fst).Nodup := by
    simp [thTwoMaps]
  have h2 : (qualified_maps thTwoMaps).Pairwise (fun p q => mapSortKey p ≠ mapSortKey q) := by
    rw [qualified_maps_thTwoMaps]
    simp only [List.pairwise_cons, List.mem_cons, List.mem_singleton]
    refine ⟨?_, by simp, List.Pairwise.nil⟩
    intro q hq
    rcases hq with rfl | hq
    · simp only [mapSortKey]
      intro h
      have := congrArg (fun z => (ofLex z).1) h
      norm_num at this
    · cases hq
  have h3 : 2 * 1 ≤ (qualified_maps thTwoMaps).length := by
    rw [qualified_maps_thTwoMaps]; norm_num
  exact ⟨h1, h2, h3, (c3_best_worst_maps thTwoMaps 1).2.2 h1 h2 h3⟩

/-- A filterMap that only keeps entries of one fixed key returns at most one
element when the keys are duplicate-free. -/
theorem filterMap_key_len_le_one {γ δ : Type} (k : String) (f : String × γ → Option δ)
    (hf : ∀ x, f x ≠ none → x.1 = k) :
    ∀ l : List (String × γ), (l.map Prod.fst).Nodup → (l.filterMap f).length ≤ 1 := by
  intro l
  induction l with
  | nil => simp
  | cons a t ih =>
    intro hnd
    rw [List.map_cons] at hnd
    rcases List.nodup_cons.mp hnd with ⟨ha, ht⟩
    rw [List.filterMap_cons]
    cases hfa : f a with
    | none => exact ih ht
    | some b =>
      have hz : t.filterMap f = [] := by
        rw [List.filterMap_eq_nil]
        intro x hx
        by_contra hne
        have hk1 : x.1 = k := hf x hne
        have hk2 : a.1 = k := hf a (by simp [hfa])
        exact ha ((hk2.trans hk1.symm) ▸ List.mem_map_of_mem Prod.fst hx)
      simp [hz]

/-- An element of a prefix that fits under the cut survives `take`. -/
theorem mem_take_append_left {α : Type} {l₁ l₂ : List α} {x : α} {n : ℕ}
    (hlen : l₁.length ≤ n) (h : x ∈ l₁) : x ∈ (l₁ ++ l₂).take n := by
  rw [List.take_append_eq_append_take, List.take_of_length_le hlen]
  exact List.mem_append_left _ h

/-- A list of naturals bounded by 1 sums to at most its length. -/
theorem sum_le_length_of_le_one :
    ∀ l : List ℕ, (∀ x ∈ l, x ≤ 1) → l.sum ≤ l.length := by
  intro l
  induction l with
  | nil => simp
  | cons a t ih =>
    intro h
    have := h a (List.mem_cons_self a t)
    have := ih (fun x hx => h x (List.mem_cons_of_mem a hx))
    simp only [List.sum_cons, List.length_cons]
    omega

/-- The (map, win-rate) list of maps with ≥ 2 games keeps its keys a sublist
of the raw `map_stats` keys. -/
theorem maps_with_two_games_keys_sublist (th : TeamMatchHistory) :
    ((maps_with_two_games th).map Prod.fst).Sublist (th.map_stats.map Prod.fst) := by
  rw [maps_with_two_games]
  induction th.map_stats with
  | nil => simp
  | cons a t ih =>
    rw [List.filterMap_cons]
    by_cases h : 2 ≤ a.2.played
    · rw [if_pos h]
      simpa using List.Sublist.cons₂ a.1 ih
    · rw [if_neg h]
      simpa using List.Sublist.cons a.1 ih

/-- C7 amended: whenever a map sits inside the top-3 cut of our ≥2-game maps
(sorted by win rate, descending) with our win rate ≥ 55 and inside the top-3
cut of the opponent's ≥2-game maps (ascending) with their win rate ≤ 50, the
engine emits a map-pick recommendation for it whose expected impact renders
our win rate minus theirs and whose confidence is "high" exactly when that
gap exceeds 20 points. (The source applies the 55/50 thresholds only inside
the two top-3 cuts, so a map merely satisfying the thresholds — the claim's
reading — need not produce a pick: see the counterexample.) -/
theorem c7_map_pick (data : GridDataPackage) (m : String) (owr pwr : ℚ)
    (hnB : (data.team_b.map_stats.map Prod.fst).Nodup)
    (hour : (m, owr) ∈ (pySortOnDesc Prod.snd (maps_with_two_games data.team_a)).take 3)
    (hopp : (m, pwr) ∈ (pySortOn Prod.snd (maps_with_two_games data.team_b)).take 3)
    (h55 : 55 ≤ owr) (h50 : pwr ≤ 50) :
    ∃ r ∈ generate_recommendations data,
      r.type = "map_pick" ∧ r.action = "Pick " ++ m ∧
      r.expected_impact = "+" ++ fm1 (owr - pwr) ++ "% expected win rate advantage" ∧
      r.confidence = (if 20 < owr - pwr then "high" else "medium") := by
  classical
  have hopp3nd : (((pySortOn Prod.snd (maps_with_two_games data.team_b)).take 3).map
      Prod.fst).Nodup := by
    have h1 : ((maps_with_two_games data.team_b).map Prod.fst).Nodup :=
      hnB.sublist (maps_with_two_games_keys_sublist data.team_b)
    have h2 : ((pySortOn Prod.snd (maps_with_two_games data.team_b)).map Prod.fst).Perm
        ((maps_with_two_games data.team_b).map Prod.fst) :=
      (pySortOn_perm _ _).map _
    exact (h2.nodup_iff.mpr h1).sublist ((List.take_sublist _ _).map _)
  have hplen : (map_pick_recs data).length ≤ 3 := by
    rw [map_pick_recs, List.length_flatMap]
    have hblock : ∀ q ∈ (pySortOnDesc Prod.snd (maps_with_two_games data.team_a)).take 3,
        (((pySortOn Prod.snd (maps_with_two_games data.team_b)).take 3).filterMap
          (fun r => if q.1 = r.1 ∧ 55 ≤ q.2 ∧ r.2 ≤ 50 then
            some (⟨"Pick " ++ q.1, "map_pick",
              "Strong map advantage - Our " ++ fm1 q.2 ++ "% vs their " ++ fm1 r.2 ++ "%",
              "+" ++ fm1 (q.2 - r.2) ++ "% expected win rate advantage",
              if 20 < q.2 - r.2 then "high" else "medium",
              "Our record: " ++ map_record_str data.team_a q.1 ++ ", Their record: "
                ++ map_record_str data.team_b r.1⟩ : Recommendation)
            else none)).length ≤ 1 := by
      intro q _
      refine filterMap_key_len_le_one q.1 _ ?_ _ hopp3nd
      intro x hx
      by_contra hne
      apply hx
      rw [if_neg]
      intro hc
      exact hne hc.1.symm
    calc ((((pySortOnDesc Prod.snd (maps_with_two_games data.team_a)).take 3)).map
          fun q => (((pySortOn Prod.snd (maps_with_two_games data.team_b)).take 3).filterMap
            (fun r => if q.1 = r.1 ∧ 55 ≤ q.2 ∧ r.2 ≤ 50 then
              some (⟨"Pick " ++ q.1, "map_pick",
                "Strong map advantage - Our " ++ fm1 q.2 ++ "% vs their " ++ fm1 r.2 ++ "%",
                "+" ++ fm1 (q.2 - r.2) ++ "% expected win rate advantage",
                if 20 < q.2 - r.2 then "high" else "medium",
                "Our record: " ++ map_record_str data.team_a q.1 ++ ", Their record: "
                  ++ map_record_str data.team_b r.1⟩ : Recommendation)
              else none)).length).sum
        ≤ (((pySortOnDesc Prod.snd (maps_with_two_games data.team_a)).take 3)).length := by
          rw [← List.length_map _ (fun q =>
            (((pySortOn Prod.snd (maps_with_two_games data.team_b)).take 3).filterMap
              (fun r => if q.1 = r.1 ∧ 55 ≤ q.2 ∧ r.2 ≤ 50 then
                some (⟨"Pick " ++ q.1, "map_pick",
                  "Strong map advantage - Our " ++ fm1 q.2 ++ "% vs their " ++ fm1 r.2 ++ "%",
                  "+" ++ fm1 (q.2 - r.2) ++ "% expected win rate advantage",
                  if 20 < q.2 - r.2 then "high" else "medium",
                  "Our record: " ++ map_record_str data.team_a q.1 ++ ", Their record: "
                    ++ map_record_str data.team_b r.1⟩ : Recommendation)
                else none)).length)]
          refine sum_le_length_of_le_one _ ?_
          intro x hx
          obtain ⟨q, hq, hqx⟩ := List.mem_map.mp hx
          exact hqx ▸ hblock q hq
      _ ≤ 3 := by simpa using List.length_take_le 3 _
  have hsome : (if ((m, owr) : String × ℚ).1 = ((m, pwr) : String × ℚ).1 ∧ 55 ≤ owr
        ∧ pwr ≤ 50 then
      some (⟨"Pick " ++ m, "map_pick",
        "Strong map advantage - Our " ++ fm1 owr ++ "% vs their " ++ fm1 pwr ++ "%",
        "+" ++ fm1 (owr - pwr) ++ "% expected win rate advantage",
        if 20 < owr - pwr then "high" else "medium",
        "Our record: " ++ map_record_str data.team_a m ++ ", Their record: "
          ++ map_record_str data.team_b m⟩ : Recommendation)
      else none)
      = some ⟨"Pick " ++ m, "map_pick",
        "Strong map advantage - Our " ++ fm1 owr ++ "% vs their " ++ fm1 pwr ++ "%",
        "+" ++ fm1 (owr - pwr) ++ "% expected win rate advantage",
        if 20 < owr - pwr then "high" else "medium",
        "Our record: " ++ map_record_str data.team_a m ++ ", Their record: "
          ++ map_record_str data.team_b m⟩ :=
    if_pos ⟨rfl, h55, h50⟩
  have hrecmem : (⟨"Pick " ++ m, "map_pick",
      "Strong map advantage - Our " ++ fm1 owr ++ "% vs their " ++ fm1 pwr ++ "%",
      "+" ++ fm1 (owr - pwr) ++ "% expected win rate advantage",
      if 20 < owr - pwr then "high" else "medium",
      "Our record: " ++ map_record_str data.team_a m ++ ", Their record: "
        ++ map_record_str data.team_b m⟩ : Recommendation) ∈ map_pick_recs data := by
    rw [map_pick_recs]
    exact List.mem_flatMap.mpr ⟨(m, owr), hour,
      List.mem_filterMap.mpr ⟨(m, pwr), hopp, hsome⟩⟩
  refine ⟨⟨"Pick " ++ m, "map_pick",
      "Strong map advantage - Our " ++ fm1 owr ++ "% vs their " ++ fm1 pwr ++ "%",
      "+" ++ fm1 (owr - pwr) ++ "% expected win rate advantage",
      if 20 < owr - pwr then "high" else "medium",
      "Our record: " ++ map_record_str data.team_a m ++ ", Their record: "
        ++ map_record_str data.team_b m⟩, ?_, rfl, rfl, rfl, rfl⟩
  rw [generate_recommendations, List.append_assoc, List.append_assoc]
  exact mem_take_append_left (hplen.trans (by norm_num)) hrecmem

/-- C7 counterexample: our "Haven" has 5 games at 60% (≥ 55%, ≥ 2 games) and
the opponent's "Haven" has 2 games at 0% (≤ 50%) — Haven appears in both
claim-defined lists — yet the engine emits nothing at all, because the 55/50
thresholds are applied only inside the win-rate-sorted top-3 cuts and our
three 100%-maps crowd Haven out. -/
theorem c7_no_pick_for_qualifying_map :
    ("Haven", (60 : ℚ)) ∈ maps_with_two_games dataC7.team_a ∧
    ((55 : ℚ) ≤ 60 ∧ (0 : ℚ) ≤ 50) ∧
    ("Haven", (0 : ℚ)) ∈ maps_with_two_games dataC7.team_b ∧
    generate_recommendations dataC7 = [] := by
  have hmA : maps_with_two_games dataC7.team_a =
      [("Split", 100), ("Lotus", 100), ("Pearl", 100), ("Haven", 60)] := by
    simp only [maps_with_two_games, dataC7, thOurFour, List.filterMap_cons, List.filterMap_nil]
    norm_num
  have hmB : maps_with_two_games dataC7.team_b = [("Haven", 0)] := by
    simp only [maps_with_two_games, dataC7, thOppHaven, List.filterMap_cons, List.filterMap_nil]
    norm_num
  have hsortA : pySortOnDesc Prod.snd (maps_with_two_games dataC7.team_a) =
      [("Split", 100), ("Lotus", 100), ("Pearl", 100), ("Haven", 60)] := by
    rw [hmA]
    simp [pySortOnDesc, List.mergeSort, List.merge]
    norm_num
  have hdeps : detect_agent_dependencies dataC7.team_b = [] := by
    simp [detect_agent_dependencies, agent_match_results, dataC7, thOppHaven,
      pySortOnDesc, List.mergeSort]
  have hstars : get_star_players dataC7.team_b 1 = [] := by
    simp [get_star_players, scored_players, calculate_player_stats, player_accs,
      dataC7, thOppHaven, pySortOnDesc, List.mergeSort]
  refine ⟨by rw [hmA]; simp, ⟨by norm_num, by norm_num⟩, by rw [hmB]; simp, ?_⟩
  have hpicks : map_pick_recs dataC7 = [] := by
    rw [map_pick_recs, hsortA, hmB]
    simp [pySortOn, List.mergeSort, List.merge]
  have hbans : map_ban_recs dataC7 = [] := by
    rw [map_ban_recs, hmB]
    simp [pySortOnDesc, List.mergeSort]
  have hagent : agent_counter_recs dataC7 = [] := by
    rw [agent_counter_recs, hdeps]
    rfl
  have htact : tactical_recs dataC7 = [] := by
    simp [tactical_recs, hstars]
  rw [generate_recommendations, hpicks, hbans, hagent, htact]
  rfl

/-- C7 witness: our 100% Ascent against the opponent's 0% Ascent triggers a
high-confidence pick recommendation. -/
theorem c7_map_pick_witness :
    (dataC7w.team_b.map_stats.map Prod.fst).Nodup ∧
    ("Ascent", (100 : ℚ)) ∈ (pySortOnDesc Prod.snd (maps_with_two_games dataC7w.team_a)).take 3 ∧
    ("Ascent", (0 : ℚ)) ∈ (pySortOn Prod.snd (maps_with_two_games dataC7w.team_b)).take 3 ∧
    ((55 : ℚ) ≤ 100 ∧ (0 : ℚ) ≤ 50) ∧
    (∃ r ∈ generate_recommendations dataC7w,
      r.type = "map_pick" ∧ r.action = "Pick " ++ "Ascent" ∧
      r.expected_impact = "+" ++ fm1 ((100 : ℚ) - 0) ++ "% expected win rate advantage" ∧
      r.confidence = (if 20 < (100 : ℚ) - 0 then "high" else "medium")) := by
  have h1 : (dataC7w.team_b.map_stats.map Prod.fst).Nodup := by
    simp [dataC7w]
  have h2 : ("Ascent", (100 : ℚ))
      ∈ (pySortOnDesc Prod.snd (maps_with_two_games dataC7w.team_a)).take 3 := by
    have : maps_with_two_games dataC7w.team_a = [("Ascent", 100)] := by
      simp only [maps_with_two_games, dataC7w, List.filterMap_cons, List.filterMap_nil]
      norm_num
    rw [this]
    simp [pySortOnDesc, List.mergeSort]
  have h3 : ("Ascent", (0 : ℚ))
      ∈ (pySortOn Prod.snd (maps_with_two_games dataC7w.team_b)).take 3 := by
    have : maps_with_two_games dataC7w.team_b = [("Ascent", 0)] := by
      simp only [maps_with_two_games, dataC7w, List.filterMap_cons, List.filterMap_nil]
      norm_num
    rw [this]
    simp [pySortOn, List.mergeSort]
  exact ⟨h1, h2, h3, ⟨by norm_num, by norm_num⟩,
    c7_map_pick dataC7w "Ascent" 100 0 h1 h2 h3 (by norm_num) (by norm_num)⟩

/-- C8 amended: when the single most-picked agent (the head of the pick
table sorted by count, descending) holds more than 30% of a team's picks and
the dependency scan recorded a strength entry for that same agent, a
high-exploitability heavy-reliance weakness is emitted whose metric renders
both the reliance percentage and the recorded win-rate differential; it
appears in the returned list provided at most 4 weaknesses precede it.
(The source checks only `top_agents[0]` and truncates to 5, so a non-top
agent above 30% or a crowded list yields no such entry: see the
counterexample.) -/
theorem c8_heavy_reliance (data : GridDataPackage) (a0 : String) (c0 : ℕ)
    (rest : List (String × ℕ)) (dep : AgentDependency)
    (hsort : pySortOnDesc Prod.snd data.team_b.agent_picks = (a0, c0) :: rest)
    (htot : 0 < (data.team_b.agent_picks.map Prod.snd).sum)
    (hrel : 30 < (c0 : ℚ) / (((data.team_b.agent_picks.map Prod.snd).sum : ℕ) : ℚ) * 100)
    (hdep : (detect_agent_dependencies data.team_b).find?
        (fun d => d.agent == a0 && d.type == "strength") = some dep)
    (hroom : (map_weakness_list data.team_b ++ form_weakness_list data.team_b
        ++ agent_weakness_list data.team_b).length ≤ 4) :
    (⟨"Agent Dependency", "Heavy reliance on " ++ a0,
      fm1 ((c0 : ℚ) / (((data.team_b.agent_picks.map Prod.snd).sum : ℕ) : ℚ) * 100)
        ++ "% of picks are " ++ a0 ++ ", " ++ fm1 dep.difference
        ++ "% higher win rate with " ++ a0,
      "high",
      "Banning or countering " ++ a0 ++ " could significantly impact performance"⟩ : Weakness)
      ∈ detect_opponent_weaknesses data := by
  have hw4 : reliance_weakness_list data.team_b =
      [⟨"Agent Dependency", "Heavy reliance on " ++ a0,
        fm1 ((c0 : ℚ) / (((data.team_b.agent_picks.map Prod.snd).sum : ℕ) : ℚ) * 100)
          ++ "% of picks are " ++ a0 ++ ", " ++ fm1 dep.difference
          ++ "% higher win rate with " ++ a0,
        "high",
        "Banning or countering " ++ a0 ++ " could significantly impact performance"⟩] := by
    simp only [reliance_weakness_list, hsort]
    rw [if_pos htot, if_pos hrel, hdep]
  rw [detect_opponent_weaknesses, hw4, List.take_of_length_le]
  · exact List.mem_append_right _ (List.mem_singleton_self _)
  · simp only [List.length_append, List.length_singleton] at hroom ⊢
    omega

/-- Evaluation helper: over the five C8 matches the dependency scan finds
exactly the agent-B strength entry, whatever the pick table and map table
hold. -/
theorem detect_agent_dependencies_B8 (ap : List (String × ℕ)) :
    detect_agent_dependencies
      ⟨teamB8, [mWin1, mWin2, mWin3, mLoss4, mLoss5], 5, 3, 2, 60, [], ap, []⟩ = [depB8] := by
  have h1 : agent_match_results
      (⟨teamB8, [mWin1, mWin2, mWin3, mLoss4, mLoss5], 5, 3, 2, 60, [], ap, []⟩ :
        TeamMatchHistory) = [("B", (3, 0)), ("A", (0, 2))] := by
    simp [agent_match_results, agents_in_match, teamB8, mWin1, mWin2, mWin3, mLoss4, mLoss5,
      insertOnce, alSet, alGet]
  have hP100 : pyRound (100 : ℚ) 1 = 100 := by
    simp only [pyRound, rnd2]; norm_num
  have hP60 : pyRound (60 : ℚ) 1 = 60 := by
    simp only [pyRound, rnd2]; norm_num
  have hP40 : pyRound (40 : ℚ) 1 = 40 := by
    simp only [pyRound, rnd2]; norm_num
  have hf40 : fmtQ (40 : ℚ) = "40.0" := by
    simp only [fmtQ, rnd2]
    norm_num
    decide
  simp only [detect_agent_dependencies, h1]
  norm_num [List.filterMap_cons, List.filterMap_nil, hP100, hP60, hP40, hf40]
  simp [pySortOnDesc, List.mergeSort, depB8]

/-- Evaluation helper: the C8 counterexample package produces no weaknesses
at all — in particular no heavy-reliance entry for agent "B". -/
theorem detect_opponent_weaknesses_dataC8 :
    detect_opponent_weaknesses dataC8 = [] := by
  have hdeps := detect_agent_dependencies_B8 [("A", 8), ("B", 7), ("C", 5)]
  have hw1 : map_weakness_list dataC8.team_b = [] := by
    simp [map_weakness_list, dataC8, thB8]
  have hw2 : form_weakness_list dataC8.team_b = [] := by
    simp [form_weakness_list, detect_form_patterns, dataC8, thB8]
  have hw3 : agent_weakness_list dataC8.team_b = [] := by
    have : detect_agent_dependencies dataC8.team_b = [depB8] := hdeps
    simp [agent_weakness_list, this, depB8]
  have hw4 : reliance_weakness_list dataC8.team_b = [] := by
    have h2 : detect_agent_dependencies dataC8.team_b = [depB8] := hdeps
    have hsort : pySortOnDesc Prod.snd dataC8.team_b.agent_picks =
        [("A", 8), ("B", 7), ("C", 5)] := by
      simp only [dataC8, thB8]
      simp [pySortOnDesc, List.mergeSort, List.merge]
    simp only [reliance_weakness_list, hsort, h2]
    norm_num [dataC8, thB8, depB8, List.find?]
    simp
  rw [detect_opponent_weaknesses, hw1, hw2, hw3, hw4]
  rfl

/-- C8 counterexample: agent "B" holds 35% (> 30%) of all picks and is a
detected strength dependency, yet the weakness list is empty: the source
only examines the most-picked agent ("A", 40%, which has no dependency
entry), never "B". -/
theorem c8_no_heavy_reliance_for_B :
    (alGet dataC8.team_b.agent_picks "B" = some 7) ∧
    ((dataC8.team_b.agent_picks.map Prod.snd).sum = 20) ∧
    (30 < (7 : ℚ) / 20 * 100) ∧
    (depB8 ∈ detect_agent_dependencies dataC8.team_b ∧ depB8.type = "strength") ∧
    detect_opponent_weaknesses dataC8 = [] := by
  refine ⟨by simp [dataC8, thB8, alGet], by simp [dataC8, thB8], by norm_num, ⟨?_, rfl⟩,
    detect_opponent_weaknesses_dataC8⟩
  rw [show detect_agent_dependencies dataC8.team_b = [depB8] from
    detect_agent_dependencies_B8 [("A", 8), ("B", 7), ("C", 5)]]
  exact List.mem_singleton_self _

/-- C8 witness: with "B" the most-picked agent (40% of picks) and a strength
dependency, the heavy-reliance weakness is emitted, citing both figures. -/
theorem c8_heavy_reliance_witness :
    (pySortOnDesc Prod.snd dataC8w.team_b.agent_picks
      = ("B", 8) :: [("A", 7), ("C", 5)]) ∧
    (0 < (dataC8w.team_b.agent_picks.map Prod.snd).sum) ∧
    (30 < (8 : ℚ) / (((dataC8w.team_b.agent_picks.map Prod.snd).sum : ℕ) : ℚ) * 100) ∧
    ((detect_agent_dependencies dataC8w.team_b).find?
        (fun d => d.agent == "B" && d.type == "strength") = some depB8) ∧
    ((map_weakness_list dataC8w.team_b ++ form_weakness_list dataC8w.team_b
        ++ agent_weakness_list dataC8w.team_b).length ≤ 4) ∧
    (⟨"Agent Dependency", "Heavy reliance on " ++ "B",
      fm1 ((8 : ℚ) / (((dataC8w.team_b.agent_picks.map Prod.snd).sum : ℕ) : ℚ) * 100)
        ++ "% of picks are " ++ "B" ++ ", " ++ fm1 depB8.difference
        ++ "% higher win rate with " ++ "B",
      "high",
      "Banning or countering " ++ "B" ++ " could significantly impact performance"⟩ : Weakness)
      ∈ detect_opponent_weaknesses dataC8w := by
  have hdeps : detect_agent_dependencies dataC8w.team_b = [depB8] :=
    detect_agent_dependencies_B8 [("B", 8), ("A", 7), ("C", 5)]
  have hsort : pySortOnDesc Prod.snd dataC8w.team_b.agent_picks
      = ("B", 8) :: [("A", 7), ("C", 5)] := by
    simp only [dataC8w, thB8w]
    simp [pySortOnDesc, List.mergeSort, List.merge]
  have htot : 0 < (dataC8w.team_b.agent_picks.map Prod.snd).sum := by
    simp [dataC8w, thB8w]
  have hrel : 30 < (8 : ℚ) / (((dataC8w.team_b.agent_picks.map Prod.snd).sum : ℕ) : ℚ) * 100 := by
    have hsum : (dataC8w.team_b.agent_picks.map Prod.snd).sum = 20 := by
      simp [dataC8w, thB8w]
    rw [hsum]
    norm_num
  have hfind : (detect_agent_dependencies dataC8w.team_b).find?
      (fun d => d.agent == "B" && d.type == "strength") = some depB8 := by
    rw [hdeps]
    simp [List.find?, depB8]
  have hroom : (map_weakness_list dataC8w.team_b ++ form_weakness_list dataC8w.team_b
      ++ agent_weakness_list dataC8w.team_b).length ≤ 4 := by
    have hw1 : map_weakness_list dataC8w.team_b = [] := by
      simp [map_weakness_list, dataC8w, thB8w]
    have hw2 : form_weakness_list dataC8w.team_b = [] := by
      simp [form_weakness_list, detect_form_patterns, dataC8w, thB8w]
    have hw3 : agent_weakness_list dataC8w.team_b = [] := by
      simp [agent_weakness_list, hdeps, depB8]
    rw [hw1, hw2, hw3]
    simp
  exact ⟨hsort, htot, hrel, hfind, hroom,
    c8_heavy_reliance dataC8w "B" 8 [("A", 7), ("C", 5)] depB8 hsort htot hrel hfind hroom⟩

end Scouting
